import Mathlib

set_option maxRecDepth 100000

/-!
# Verification of `tri_solitaire.c`

A shallow embedding of the triangle peg-solitaire solver. The board is the
program's fixed `9 × 13` array of `int` cells; cell values follow the C
bit encodings (`POS_EMPTY = 0x00`, `POS_FULL = 0x01`, `POS_INVALID = 0x02`,
`POS_LAST = 0x10`). Reads through `squares` model the C array access with integer
offsets; an out-of-range read is given the border value `POS_INVALID`
(the safety theorem for the search shows such reads never go out of range
on reachable boards). C `int`s are 32-bit, so `v &= ~POS_LAST` becomes
`v &&& 0xFFFFFFEF`.
-/

/-- The 9 × 13 grid of `int` cells (`struct board`'s `squares` field). -/
def Grid : Type := Fin 9 → Fin 13 → ℕ

instance : DecidableEq Grid := by unfold Grid; infer_instance

/-- `v & POS_FULL`: the cell holds a peg. -/
def hasFull (v : ℕ) : Bool := v &&& 0x01 != 0

/-- `v & POS_LAST`: the cell carries the "last moved" display marker. -/
def hasLast (v : ℕ) : Bool := v &&& 0x10 != 0

/-- `v &= ~POS_LAST` on a 32-bit `int`: `~0x10 = 0xFFFFFFEF`. -/
def clearLastCell (v : ℕ) : ℕ := v &&& 0xFFFFFFEF

/-- Read `b->squares[r][c]` with `int` indices.  Out-of-range indices model
the region beyond the array; they are mapped to `POS_INVALID`, the value of
the 2-cell border (the bounds-safety theorem shows move generation never
reads out of range on reachable boards). -/
def squares (g : Grid) (r c : ℤ) : ℕ :=
  if h : 0 ≤ r ∧ r < 9 ∧ 0 ≤ c ∧ c < 13 then
    g ⟨r.toNat, by omega⟩ ⟨c.toNat, by omega⟩
  else 2

/-- Write `b->squares[r][c] = v` with `int` indices (out-of-range writes
never occur in the verified paths; they are dropped here). -/
def setSq (g : Grid) (r c : ℤ) (v : ℕ) : Grid :=
  fun i j => if (i : ℤ) = r ∧ (j : ℤ) = c then v else g i j

/-- `clear_last`: clear the `POS_LAST` bit of every cell. -/
def clear_last (g : Grid) : Grid :=
  fun i j => clearLastCell (g i j)

/-- The row-major traversal of all grid cells, as in the C double loops
`for (row...) for (col...)`. -/
def gridCells : List (Fin 9 × Fin 13) :=
  (List.finRange 9).flatMap (fun r => (List.finRange 13).map (fun c => (r, c)))

/-- `count_pegs`: number of cells with the `POS_FULL` bit set. -/
def count_pegs (g : Grid) : ℕ :=
  gridCells.countP (fun p => hasFull (g p.1 p.2))

/-- `int rowoffsets[6] = {-1, -1, 1, 1, 0, 0}` -/
def rowoffsets (o : Fin 6) : ℤ := [-1, -1, 1, 1, 0, 0].getD o 0

/-- `int coloffsets[6] = {-1, 1, -1, 1, -2, 2}` -/
def coloffsets (o : Fin 6) : ℤ := [-1, 1, -1, 1, -2, 2].getD o 0

/-- A candidate jump: a source cell `(row, col)` of the scan together with a
direction index into the offset tables. -/
structure Move where
  row : Fin 9
  col : Fin 13
  off : Fin 6
  deriving DecidableEq

/-- Row of the jumped-over (adjacent) cell: `row + roff`. -/
def adjR (m : Move) : ℤ := (m.row : ℤ) + rowoffsets m.off

/-- Column of the jumped-over (adjacent) cell: `col + coff`. -/
def adjC (m : Move) : ℤ := (m.col : ℤ) + coloffsets m.off

/-- Row of the landing cell: `row + 2*roff`. -/
def landR (m : Move) : ℤ := (m.row : ℤ) + 2 * rowoffsets m.off

/-- Column of the landing cell: `col + 2*coff`. -/
def landC (m : Move) : ℤ := (m.col : ℤ) + 2 * coloffsets m.off

/-- All candidate (cell, direction) pairs in the order the nested loops of
`generate_boards` visit them: row-major over cells, then the six offsets. -/
def allMoves : List Move :=
  gridCells.flatMap (fun p => (List.finRange 6).map (fun o => Move.mk p.1 p.2 o))

/-- The legality test of `generate_boards`: the source cell has a peg (the
`continue` guard), the adjacent cell has a peg, and the landing cell is
exactly `POS_EMPTY`. -/
def legalBool (g : Grid) (m : Move) : Bool :=
  hasFull (g m.row m.col) &&
    (hasFull (squares g (adjR m) (adjC m)) && (squares g (landR m) (landC m) == 0))

/-- The list of moves generated from a board, in discovery order. -/
def legalMoves (g : Grid) : List Move := allMoves.filter (legalBool g)

/-- Build the child board of a move, as `generate_boards` does: copy the
parent (`memcpy`), clear all `POS_LAST` markers (`clear_last`), then empty
the source cell, empty the jumped cell, and set the landing cell to
`POS_FULL | POS_LAST`. -/
def applyMove (g : Grid) (m : Move) : Grid :=
  setSq (setSq (setSq (clear_last g) m.row m.col 0) (adjR m) (adjC m) 0)
    (landR m) (landC m) 0x11

/-- The rows of `initial_board_1` (`_` = `POS_INVALID`, `X` = `POS_FULL`,
`O` = `POS_EMPTY`). -/
def initial_rows_1 : List (List ℕ) :=
  [ [2, 2, 2, 2, 2, 2, 2, 2, 2, 2, 2, 2, 2],
    [2, 2, 2, 2, 2, 2, 2, 2, 2, 2, 2, 2, 2],
    [2, 2, 2, 2, 2, 2, 1, 2, 2, 2, 2, 2, 2],
    [2, 2, 2, 2, 2, 1, 2, 1, 2, 2, 2, 2, 2],
    [2, 2, 2, 2, 1, 2, 0, 2, 1, 2, 2, 2, 2],
    [2, 2, 2, 1, 2, 1, 2, 1, 2, 1, 2, 2, 2],
    [2, 2, 1, 2, 1, 2, 1, 2, 1, 2, 1, 2, 2],
    [2, 2, 2, 2, 2, 2, 2, 2, 2, 2, 2, 2, 2],
    [2, 2, 2, 2, 2, 2, 2, 2, 2, 2, 2, 2, 2] ]

/-- The starting board used by `main` (empty cell at the triangle center). -/
def initial_board_1 : Grid :=
  fun r c => (initial_rows_1.getD r []).getD c 2

/-! ## Basic facts about grid access -/

/-- Coordinates inside the 9 × 13 array. -/
abbrev Bnds (r c : ℤ) : Prop := 0 ≤ r ∧ r < 9 ∧ 0 ≤ c ∧ c < 13

/-- Convert in-range integer coordinates to a grid cell. -/
def toCell (r c : ℤ) (h : Bnds r c) : Fin 9 × Fin 13 :=
  (⟨r.toNat, by omega⟩, ⟨c.toNat, by omega⟩)

lemma toCell_coe_fst (r c : ℤ) (h : Bnds r c) : (((toCell r c h).1 : ℕ) : ℤ) = r := by
  simp only [toCell]
  omega

lemma toCell_coe_snd (r c : ℤ) (h : Bnds r c) : (((toCell r c h).2 : ℕ) : ℤ) = c := by
  simp only [toCell]
  omega

lemma squares_toCell (g : Grid) (r c : ℤ) (h : Bnds r c) :
    squares g r c = g (toCell r c h).1 (toCell r c h).2 := by
  simp only [squares, toCell, dif_pos h]

lemma squares_fin (g : Grid) (i : Fin 9) (j : Fin 13) :
    squares g (i : ℤ) (j : ℤ) = g i j := by
  have h1 : (i : ℕ) < 9 := i.isLt
  have h2 : (j : ℕ) < 13 := j.isLt
  have hb : Bnds (i : ℤ) (j : ℤ) := ⟨by omega, by omega, by omega, by omega⟩
  rw [squares_toCell g _ _ hb]
  have e1 : (toCell (i : ℤ) (j : ℤ) hb).1 = i := by
    apply Fin.ext
    simp only [toCell]
    omega
  have e2 : (toCell (i : ℤ) (j : ℤ) hb).2 = j := by
    apply Fin.ext
    simp only [toCell]
    omega
  rw [e1, e2]

lemma squares_oob (g : Grid) (r c : ℤ) (h : ¬ Bnds r c) : squares g r c = 2 := by
  simp only [squares, dif_neg h]

lemma bnds_of_hasFull (g : Grid) (r c : ℤ) (h : hasFull (squares g r c) = true) :
    Bnds r c := by
  by_contra hb
  rw [squares_oob g r c hb] at h
  simp [hasFull] at h

lemma bnds_of_squares_eq_zero (g : Grid) (r c : ℤ) (h : squares g r c = 0) :
    Bnds r c := by
  by_contra hb
  rw [squares_oob g r c hb] at h
  omega

lemma fin_pair_eq_iff_coords (p q : Fin 9 × Fin 13) :
    ((p.1 : ℕ) : ℤ) = ((q.1 : ℕ) : ℤ) ∧ ((p.2 : ℕ) : ℤ) = ((q.2 : ℕ) : ℤ) ↔ p = q := by
  rw [Prod.ext_iff, Fin.ext_iff, Fin.ext_iff]
  omega

lemma hasFull_clearLastCell (v : ℕ) : hasFull (clearLastCell v) = hasFull v := by
  have h : (0xFFFFFFEF &&& 0x01 : ℕ) = 0x01 := by decide
  simp only [hasFull, clearLastCell, Nat.land_assoc, h]

lemma hasLast_clearLastCell (v : ℕ) : hasLast (clearLastCell v) = false := by
  have h : (0xFFFFFFEF &&& 0x10 : ℕ) = 0 := by decide
  simp [hasLast, clearLastCell, Nat.land_assoc, h]

lemma mem_gridCells (p : Fin 9 × Fin 13) : p ∈ gridCells := by
  obtain ⟨i, j⟩ := p
  simp only [gridCells, List.mem_flatMap, List.mem_map]
  exact ⟨i, List.mem_finRange i, j, List.mem_finRange j, rfl⟩

lemma gridCells_nodup : gridCells.Nodup := by decide

lemma mem_allMoves (m : Move) : m ∈ allMoves := by
  obtain ⟨i, j, o⟩ := m
  simp only [allMoves, List.mem_flatMap, List.mem_map]
  exact ⟨(i, j), mem_gridCells _, o, List.mem_finRange o, rfl⟩

lemma mem_legalMoves {g : Grid} {m : Move} :
    m ∈ legalMoves g ↔ legalBool g m = true := by
  simp [legalMoves, List.mem_filter, mem_allMoves]

/-- No offset direction is the zero vector. -/
lemma offsets_ne_zero : ∀ o : Fin 6, ¬(rowoffsets o = 0 ∧ coloffsets o = 0) := by
  decide

lemma src_ne_adj (m : Move) : ¬((m.row : ℤ) = adjR m ∧ (m.col : ℤ) = adjC m) := by
  intro ⟨h1, h2⟩
  exact offsets_ne_zero m.off ⟨by simp [adjR] at h1; omega, by simp [adjC] at h2; omega⟩

lemma src_ne_land (m : Move) : ¬((m.row : ℤ) = landR m ∧ (m.col : ℤ) = landC m) := by
  intro ⟨h1, h2⟩
  exact offsets_ne_zero m.off ⟨by simp [landR] at h1; omega, by simp [landC] at h2; omega⟩

lemma adj_ne_land (m : Move) : ¬(adjR m = landR m ∧ adjC m = landC m) := by
  intro ⟨h1, h2⟩
  exact offsets_ne_zero m.off
    ⟨by simp [adjR, landR] at h1; omega, by simp [adjC, landC] at h2; omega⟩

/-- The child board, cell by cell: `generate_boards` copies the parent,
clears every `POS_LAST` marker, then writes the three cells of the move
(the landing write is outermost since it happens last). -/
lemma applyMove_apply (g : Grid) (m : Move) (i : Fin 9) (j : Fin 13) :
    applyMove g m i j =
      if (i : ℤ) = landR m ∧ (j : ℤ) = landC m then 0x11
      else if (i : ℤ) = adjR m ∧ (j : ℤ) = adjC m then 0
      else if (i : ℤ) = (m.row : ℤ) ∧ (j : ℤ) = (m.col : ℤ) then 0
      else clearLastCell (g i j) := rfl

/-! ## Peg counting -/

lemma countP_update {α : Type} [DecidableEq α] (l : List α) (hnd : l.Nodup)
    (F G : α → Bool) (a : α)
    (ha : a ∈ l) (hagree : ∀ x ∈ l, x ≠ a → G x = F x) :
    l.countP G + (if F a then 1 else 0) = l.countP F + (if G a then 1 else 0) := by
  have hperm := List.perm_cons_erase ha
  rw [hperm.countP_eq G, hperm.countP_eq F, List.countP_cons, List.countP_cons]
  have he : (l.erase a).countP G = (l.erase a).countP F := by
    apply List.countP_congr
    intro x hx
    have hx' := (List.Nodup.mem_erase_iff hnd).mp hx
    rw [hagree x hx'.2 hx'.1]
  rw [he]
  split_ifs <;> omega

lemma coords_eq_toCell (p : Fin 9 × Fin 13) (r c : ℤ) (hb : Bnds r c) :
    (((p.1 : ℕ) : ℤ) = r ∧ ((p.2 : ℕ) : ℤ) = c) ↔ p = toCell r c hb := by
  constructor
  · intro hc
    apply (fin_pair_eq_iff_coords p (toCell r c hb)).mp
    rw [toCell_coe_fst r c hb, toCell_coe_snd r c hb]
    exact hc
  · intro hpe
    rw [hpe]
    exact ⟨toCell_coe_fst r c hb, toCell_coe_snd r c hb⟩

lemma setSq_apply (g : Grid) (r c : ℤ) (v : ℕ) (i : Fin 9) (j : Fin 13) :
    setSq g r c v i j = if ((i : ℕ) : ℤ) = r ∧ ((j : ℕ) : ℤ) = c then v else g i j := rfl

lemma squares_clear_last (g : Grid) (r c : ℤ) :
    squares (clear_last g) r c = clearLastCell (squares g r c) := by
  by_cases hb : Bnds r c
  · rw [squares_toCell _ r c hb, squares_toCell g r c hb]
    rfl
  · rw [squares_oob _ r c hb, squares_oob g r c hb]
    decide

lemma squares_setSq (g : Grid) (r c : ℤ) (v : ℕ) (r' c' : ℤ) :
    squares (setSq g r c v) r' c' =
      if r' = r ∧ c' = c ∧ Bnds r' c' then v else squares g r' c' := by
  by_cases hb : Bnds r' c'
  · rw [squares_toCell _ r' c' hb, squares_toCell g r' c' hb, setSq_apply,
      toCell_coe_fst, toCell_coe_snd]
    by_cases h : r' = r ∧ c' = c
    · rw [if_pos h, if_pos ⟨h.1, h.2, hb⟩]
    · rw [if_neg h, if_neg (by tauto)]
  · rw [squares_oob _ r' c' hb, squares_oob g r' c' hb, if_neg (by tauto)]

lemma count_pegs_clear_last (g : Grid) : count_pegs (clear_last g) = count_pegs g := by
  apply List.countP_congr
  intro p _
  simp only [clear_last, hasFull_clearLastCell]

lemma count_pegs_setSq (g : Grid) (r c : ℤ) (v : ℕ) (hb : Bnds r c) :
    count_pegs (setSq g r c v) + (if hasFull (squares g r c) then 1 else 0) =
      count_pegs g + (if hasFull v then 1 else 0) := by
  have key := countP_update gridCells gridCells_nodup
    (fun p => hasFull (g p.1 p.2)) (fun p => hasFull (setSq g r c v p.1 p.2))
    (toCell r c hb) (mem_gridCells _) ?_
  · simp only [] at key
    have hFa : hasFull (g (toCell r c hb).1 (toCell r c hb).2) = hasFull (squares g r c) := by
      rw [squares_toCell g r c hb]
    have hGa : hasFull (setSq g r c v (toCell r c hb).1 (toCell r c hb).2) = hasFull v := by
      rw [setSq_apply, if_pos ⟨toCell_coe_fst r c hb, toCell_coe_snd r c hb⟩]
    simp only [hFa, hGa] at key
    exact key
  · intro x _ hx
    show hasFull (setSq g r c v x.1 x.2) = hasFull (g x.1 x.2)
    rw [setSq_apply, if_neg (fun hc => hx ((coords_eq_toCell x r c hb).mp hc))]

lemma legalBool_parts {g : Grid} {m : Move} (h : legalBool g m = true) :
    hasFull (g m.row m.col) = true ∧ hasFull (squares g (adjR m) (adjC m)) = true ∧
      squares g (landR m) (landC m) = 0 := by
  simp only [legalBool, Bool.and_eq_true, beq_iff_eq] at h
  exact ⟨h.1, h.2.1, h.2.2⟩

/-- The jump removes the source and jumped pegs and adds the landing peg:
the child has exactly one peg fewer, and the parent had at least two. -/
lemma count_pegs_applyMove {g : Grid} {m : Move} (h : legalBool g m = true) :
    count_pegs (applyMove g m) + 1 = count_pegs g ∧ 2 ≤ count_pegs g := by
  obtain ⟨hsrc, hadj, hland⟩ := legalBool_parts h
  have hbsrc : Bnds (m.row : ℤ) (m.col : ℤ) := by
    have h1 : (m.row : ℕ) < 9 := m.row.isLt
    have h2 : (m.col : ℕ) < 13 := m.col.isLt
    exact ⟨by omega, by omega, by omega, by omega⟩
  have hbadj : Bnds (adjR m) (adjC m) := bnds_of_hasFull _ _ _ hadj
  have hbland : Bnds (landR m) (landC m) := bnds_of_squares_eq_zero _ _ _ hland
  have hsrc' : hasFull (squares g (m.row : ℤ) (m.col : ℤ)) = true := by
    rw [squares_fin]; exact hsrc
  -- step 1: clearing the markers does not change the count
  have e0 : count_pegs (clear_last g) = count_pegs g := count_pegs_clear_last g
  -- step 2: empty the source cell
  have e1 := count_pegs_setSq (clear_last g) (m.row : ℤ) (m.col : ℤ) 0 hbsrc
  rw [squares_clear_last, hasFull_clearLastCell, hsrc', if_pos rfl] at e1
  have hf0 : hasFull 0 = false := by decide
  rw [hf0, if_neg (by simp)] at e1
  -- step 3: empty the jumped cell
  have hne1 : ¬(adjR m = ((m.row : ℕ) : ℤ) ∧ adjC m = ((m.col : ℕ) : ℤ) ∧
      Bnds (adjR m) (adjC m)) :=
    fun hc => src_ne_adj m ⟨hc.1.symm, hc.2.1.symm⟩
  have e2 := count_pegs_setSq (setSq (clear_last g) (m.row : ℤ) (m.col : ℤ) 0)
    (adjR m) (adjC m) 0 hbadj
  rw [squares_setSq, if_neg hne1, squares_clear_last, hasFull_clearLastCell, hadj,
    if_pos rfl, hf0, if_neg (by simp)] at e2
  -- step 4: fill the landing cell
  have hne2 : ¬(landR m = adjR m ∧ landC m = adjC m ∧ Bnds (landR m) (landC m)) :=
    fun hc => adj_ne_land m ⟨hc.1.symm, hc.2.1.symm⟩
  have hne3 : ¬(landR m = ((m.row : ℕ) : ℤ) ∧ landC m = ((m.col : ℕ) : ℤ) ∧
      Bnds (landR m) (landC m)) :=
    fun hc => src_ne_land m ⟨hc.1.symm, hc.2.1.symm⟩
  have e3 := count_pegs_setSq
    (setSq (setSq (clear_last g) (m.row : ℤ) (m.col : ℤ) 0) (adjR m) (adjC m) 0)
    (landR m) (landC m) 0x11 hbland
  rw [squares_setSq, if_neg hne2, squares_setSq, if_neg hne3,
    squares_clear_last, hland] at e3
  have hc0 : clearLastCell 0 = 0 := by decide
  have hf17 : hasFull 0x11 = true := by decide
  rw [hc0, hf0, if_neg (by simp), hf17, if_pos rfl] at e3
  have : count_pegs (applyMove g m) =
      count_pegs (setSq (setSq (setSq (clear_last g) (m.row : ℤ) (m.col : ℤ) 0)
        (adjR m) (adjC m) 0) (landR m) (landC m) 0x11) := rfl
  omega

/-! ## The recursive search -/

/-- The global mutable state of the C program (`total_boards`,
`total_winning_boards`, `winning_board`), threaded through the recursion. -/
structure SState where
  total_boards : ℕ
  total_winning_boards : ℕ
  winning_board : Option Grid
  deriving DecidableEq

/-- The win bookkeeping at the top of `generate_boards`: on a one-peg board,
remember it if no winning board was recorded yet and bump the win counter. -/
def record_win (g : Grid) (s : SState) : SState :=
  if count_pegs g = 1 then
    { s with
      winning_board :=
        match s.winning_board with
        | none => some g
        | some w => some w,
      total_winning_boards := s.total_winning_boards + 1 }
  else s

/-- `generate_boards`: do the win bookkeeping, then for each legal move in
scan order create the child board (incrementing `total_boards`) and recurse
into it before looking for the next move. -/
def generate_boards (g : Grid) (s : SState) : SState :=
  (legalMoves g).attach.foldl
    (fun s' x =>
      generate_boards (applyMove g x.1) { s' with total_boards := s'.total_boards + 1 })
    (record_win g s)
termination_by count_pegs g
decreasing_by
  have h := count_pegs_applyMove (mem_legalMoves.mp x.2)
  omega

/-- All boards of the search tree, in depth-first discovery order (the order
in which `generate_boards` is entered on them). -/
def visited_boards (g : Grid) : List Grid :=
  g :: (legalMoves g).attach.flatMap (fun x => visited_boards (applyMove g x.1))
termination_by count_pegs g
decreasing_by
  have h := count_pegs_applyMove (mem_legalMoves.mp x.2)
  omega

/-- The winning-board test `count == 1`. -/
def isWin (g : Grid) : Bool := count_pegs g == 1

lemma record_win_total_boards (g : Grid) (s : SState) :
    (record_win g s).total_boards = s.total_boards := by
  unfold record_win
  split <;> rfl

lemma record_win_wins (g : Grid) (s : SState) :
    (record_win g s).total_winning_boards =
      s.total_winning_boards + (if isWin g then 1 else 0) := by
  unfold record_win isWin
  split
  · next h => simp [h]
  · next h => simp [h]

lemma record_win_winning (g : Grid) (s : SState) :
    (record_win g s).winning_board =
      if isWin g then
        (match s.winning_board with
         | none => some g
         | some w => some w)
      else s.winning_board := by
  unfold record_win isWin
  split
  · next h => simp [h]
  · next h => simp [h]

lemma visited_boards_length_pos (g : Grid) : 1 ≤ (visited_boards g).length := by
  rw [visited_boards]
  simp

lemma find?_append_match {α : Type} (l₁ l₂ : List α) (p : α → Bool) :
    (l₁ ++ l₂).find? p =
      match l₁.find? p with
      | some v => some v
      | none => l₂.find? p := by
  induction l₁ with
  | nil => simp
  | cons a t ih =>
    by_cases h : p a
    · rw [List.cons_append, List.find?_cons_of_pos _ h, List.find?_cons_of_pos _ h]
    · rw [List.cons_append, List.find?_cons_of_neg _ h, List.find?_cons_of_neg _ h, ih]

lemma generate_boards_foldl {g : Grid}
    (ih : ∀ g' : Grid, count_pegs g' < count_pegs g → ∀ s' : SState,
      (generate_boards g' s').total_boards
          = s'.total_boards + ((visited_boards g').length - 1) ∧
        (generate_boards g' s').total_winning_boards
          = s'.total_winning_boards + (visited_boards g').countP isWin ∧
        (generate_boards g' s').winning_board
          = (match s'.winning_board with
             | some w => some w
             | none => (visited_boards g').find? isWin)) :
    ∀ (L : List {m // m ∈ legalMoves g}) (s₀ : SState),
      (L.foldl (fun s' x =>
          generate_boards (applyMove g x.1)
            { s' with total_boards := s'.total_boards + 1 }) s₀).total_boards
        = s₀.total_boards
            + (L.flatMap (fun x => visited_boards (applyMove g x.1))).length ∧
      (L.foldl (fun s' x =>
          generate_boards (applyMove g x.1)
            { s' with total_boards := s'.total_boards + 1 }) s₀).total_winning_boards
        = s₀.total_winning_boards
            + (L.flatMap (fun x => visited_boards (applyMove g x.1))).countP isWin ∧
      (L.foldl (fun s' x =>
          generate_boards (applyMove g x.1)
            { s' with total_boards := s'.total_boards + 1 }) s₀).winning_board
        = (match s₀.winning_board with
           | some w => some w
           | none => (L.flatMap (fun x => visited_boards (applyMove g x.1))).find? isWin) := by
  intro L
  induction L with
  | nil =>
    intro s₀
    refine ⟨by simp, by simp, ?_⟩
    simp only [List.foldl_nil, List.flatMap_nil, List.find?_nil]
    cases s₀.winning_board <;> rfl
  | cons x L ihL =>
    intro s₀
    have hx := count_pegs_applyMove (mem_legalMoves.mp x.2)
    obtain ⟨a1, a2, a3⟩ :=
      ih (applyMove g x.1) (by omega) { s₀ with total_boards := s₀.total_boards + 1 }
    obtain ⟨b1, b2, b3⟩ := ihL
      (generate_boards (applyMove g x.1) { s₀ with total_boards := s₀.total_boards + 1 })
    simp only [List.foldl_cons, List.flatMap_cons]
    have hlen := visited_boards_length_pos (applyMove g x.1)
    refine ⟨?_, ?_, ?_⟩
    · rw [b1, a1]
      simp only [List.length_append]
      omega
    · rw [b2, a2]
      simp only [List.countP_append]
      omega
    · rw [b3, a3, find?_append_match]
      cases s₀.winning_board with
      | none =>
        simp only []
        cases (visited_boards (applyMove g x.1)).find? isWin <;> rfl
      | some w => rfl

lemma generate_boards_spec_aux :
    ∀ (n : ℕ) (g : Grid), count_pegs g < n → ∀ (s : SState),
      (generate_boards g s).total_boards
          = s.total_boards + ((visited_boards g).length - 1) ∧
        (generate_boards g s).total_winning_boards
          = s.total_winning_boards + (visited_boards g).countP isWin ∧
        (generate_boards g s).winning_board
          = (match s.winning_board with
             | some w => some w
             | none => (visited_boards g).find? isWin) := by
  intro n
  induction n with
  | zero => intro g hg; exact absurd hg (Nat.not_lt_zero _)
  | succ n ih =>
    intro g hg s
    obtain ⟨f1, f2, f3⟩ := generate_boards_foldl
      (g := g) (fun g' hlt s' => ih g' (by omega) s')
      ((legalMoves g).attach) (record_win g s)
    rw [generate_boards]
    have hattach : ((legalMoves g).attach.flatMap
        (fun x => visited_boards (applyMove g x.1)))
        = (visited_boards g).tail := by
      rw [visited_boards]
      rfl
    refine ⟨?_, ?_, ?_⟩
    · rw [f1, record_win_total_boards, hattach, visited_boards]
      simp
    · rw [f2, record_win_wins, hattach, visited_boards, List.countP_cons]
      simp only [List.tail_cons]
      omega
    · rw [f3, record_win_winning, hattach, visited_boards]
      simp only [List.tail_cons]
      by_cases hw : isWin g
      · rw [if_pos hw, List.find?_cons_of_pos _ hw]
        cases s.winning_board <;> rfl
      · rw [if_neg hw, List.find?_cons_of_neg _ hw]

/-- Behaviour of one `generate_boards` call in terms of the visit list:
the board counter grows by the number of boards in the subtree other than
the root; the win counter grows by the number of one-peg boards visited;
the recorded winning board stays if already set and otherwise becomes the
first one-peg board in discovery order. -/
lemma generate_boards_spec (g : Grid) (s : SState) :
    (generate_boards g s).total_boards
        = s.total_boards + ((visited_boards g).length - 1) ∧
      (generate_boards g s).total_winning_boards
        = s.total_winning_boards + (visited_boards g).countP isWin ∧
      (generate_boards g s).winning_board
        = (match s.winning_board with
           | some w => some w
           | none => (visited_boards g).find? isWin) :=
  generate_boards_spec_aux (count_pegs g + 1) g (Nat.lt_succ_self _) s

/-! ## The shape invariant and reachability -/

/-- The 15 playable (triangle) cells, in row-major order. -/
def triCells : List (Fin 9 × Fin 13) :=
  [(2, 6), (3, 5), (3, 7), (4, 4), (4, 6), (4, 8),
   (5, 3), (5, 5), (5, 7), (5, 9), (6, 2), (6, 4), (6, 6), (6, 8), (6, 10)]

/-- Shape invariant: triangle cells hold `POS_EMPTY`, `POS_FULL` or
`POS_FULL | POS_LAST`; every other cell holds `POS_INVALID`. -/
def GoodGrid (g : Grid) : Prop :=
  ∀ p : Fin 9 × Fin 13,
    if p ∈ triCells then g p.1 p.2 = 0 ∨ g p.1 p.2 = 1 ∨ g p.1 p.2 = 0x11
    else g p.1 p.2 = 2

instance : DecidablePred GoodGrid := fun g => by unfold GoodGrid; infer_instance

lemma goodGrid_initial : GoodGrid initial_board_1 := by decide

/-- Boards reachable from `initial_board_1` by sequences of generated moves. -/
inductive Reachable : Grid → Prop
  | root : Reachable initial_board_1
  | step {g : Grid} {m : Move} (hg : Reachable g) (hm : m ∈ legalMoves g) :
      Reachable (applyMove g m)

lemma mem_triCells_of_hasFull {g : Grid} (hg : GoodGrid g) {p : Fin 9 × Fin 13}
    (h : hasFull (g p.1 p.2) = true) : p ∈ triCells := by
  by_contra hmem
  have h2 := hg p
  rw [if_neg hmem] at h2
  rw [h2] at h
  exact absurd h (by decide)

lemma mem_triCells_of_eq_zero {g : Grid} (hg : GoodGrid g) {p : Fin 9 × Fin 13}
    (h : g p.1 p.2 = 0) : p ∈ triCells := by
  by_contra hmem
  have h2 := hg p
  rw [if_neg hmem] at h2
  omega

lemma goodGrid_values {g : Grid} (hg : GoodGrid g) (p : Fin 9 × Fin 13) :
    g p.1 p.2 = 0 ∨ g p.1 p.2 = 1 ∨ g p.1 p.2 = 2 ∨ g p.1 p.2 = 0x11 := by
  have h2 := hg p
  by_cases hp : p ∈ triCells
  · rw [if_pos hp] at h2
    tauto
  · rw [if_neg hp] at h2
    tauto

lemma goodGrid_squares_values {g : Grid} (hg : GoodGrid g) (r c : ℤ) :
    squares g r c = 0 ∨ squares g r c = 1 ∨ squares g r c = 2 ∨ squares g r c = 0x11 := by
  by_cases hb : Bnds r c
  · rw [squares_toCell g r c hb]
    exact goodGrid_values hg _
  · rw [squares_oob g r c hb]
    tauto

/-- The grid cells written by a legal move are triangle cells. -/
lemma applyMove_cells_tri {g : Grid} {m : Move} (hg : GoodGrid g)
    (hm : legalBool g m = true) :
    (m.row, m.col) ∈ triCells ∧
      toCell (adjR m) (adjC m) (bnds_of_hasFull _ _ _ (legalBool_parts hm).2.1) ∈ triCells ∧
      toCell (landR m) (landC m)
        (bnds_of_squares_eq_zero _ _ _ (legalBool_parts hm).2.2) ∈ triCells := by
  obtain ⟨hsrc, hadj, hland⟩ := legalBool_parts hm
  refine ⟨mem_triCells_of_hasFull hg hsrc, ?_, ?_⟩
  · apply mem_triCells_of_hasFull hg
    rw [← squares_toCell g _ _ (bnds_of_hasFull _ _ _ hadj)]
    exact hadj
  · apply mem_triCells_of_eq_zero hg
    rw [← squares_toCell g _ _ (bnds_of_squares_eq_zero _ _ _ hland)]
    exact hland

lemma goodGrid_applyMove {g : Grid} {m : Move} (hg : GoodGrid g)
    (hm : legalBool g m = true) : GoodGrid (applyMove g m) := by
  obtain ⟨hsrc, hadj, hland⟩ := legalBool_parts hm
  have hbadj := bnds_of_hasFull _ _ _ hadj
  have hbland := bnds_of_squares_eq_zero _ _ _ hland
  obtain ⟨htriSrc, htriAdj, htriLand⟩ := applyMove_cells_tri hg hm
  intro p
  rw [applyMove_apply]
  by_cases h1 : ((p.1 : ℕ) : ℤ) = landR m ∧ ((p.2 : ℕ) : ℤ) = landC m
  · rw [if_pos h1, (coords_eq_toCell p _ _ hbland).mp h1, if_pos htriLand]
    tauto
  · rw [if_neg h1]
    by_cases h2 : ((p.1 : ℕ) : ℤ) = adjR m ∧ ((p.2 : ℕ) : ℤ) = adjC m
    · rw [if_pos h2, (coords_eq_toCell p _ _ hbadj).mp h2, if_pos htriAdj]
      tauto
    · rw [if_neg h2]
      by_cases h3 : ((p.1 : ℕ) : ℤ) = ((m.row : ℕ) : ℤ) ∧ ((p.2 : ℕ) : ℤ) = ((m.col : ℕ) : ℤ)
      · have hp : p = (m.row, m.col) := by
          rw [← fin_pair_eq_iff_coords]
          exact h3
        rw [if_pos h3, hp, if_pos htriSrc]
        tauto
      · rw [if_neg h3]
        by_cases hp : p ∈ triCells
        · rw [if_pos hp]
          have hv := hg p
          rw [if_pos hp] at hv
          rcases hv with hv | hv | hv <;> rw [hv] <;> decide
        · rw [if_neg hp]
          have hv := hg p
          rw [if_neg hp] at hv
          rw [hv]
          decide

/-- Every reachable board satisfies the shape invariant. -/
lemma goodGrid_of_reachable {g : Grid} (h : Reachable g) : GoodGrid g := by
  induction h with
  | root => exact goodGrid_initial
  | step hg hm ih => exact goodGrid_applyMove ih (mem_legalMoves.mp hm)

lemma triCells_bounds :
    ∀ p ∈ triCells, 2 ≤ (p.1 : ℕ) ∧ (p.1 : ℕ) ≤ 6 ∧ 2 ≤ (p.2 : ℕ) ∧ (p.2 : ℕ) ≤ 10 := by
  decide

lemma offsets_bounds :
    ∀ o : Fin 6, -1 ≤ rowoffsets o ∧ rowoffsets o ≤ 1 ∧
      -2 ≤ coloffsets o ∧ coloffsets o ≤ 2 := by
  decide

/-! ## The spec's view of a cell -/

/-- The three exclusive cell states named by the specification. -/
inductive CellState
  | invalid
  | empty
  | occupied
  deriving DecidableEq

/-- Spec view of a cell value: `POS_INVALID` is `invalid`, a value holding
the peg bit is `occupied`, anything else is `empty`. -/
def cellState (v : ℕ) : CellState :=
  if v = 2 then CellState.invalid
  else if hasFull v then CellState.occupied
  else CellState.empty

/-! ## Bounding the number of legal moves

The number of moves generated from a board depends only on which triangle
cells hold pegs (15 bits).  We reduce the move count of a well-formed board
to a pure arithmetic function of that 15-bit occupancy mask and check the
bound `≤ MAX_BOARDS = 14` for all `2^15` masks by kernel computation. -/

/-- The bit of `m` at position `i`, as `0` or `1`. -/
def bitOf (m i : ℕ) : ℕ := m >>> i &&& 1

/-- The 36 geometrically possible jumps `(source, jumped, landing)`, as
indices into `triCells`, in scan order. -/
def candIdxTriples : List (ℕ × ℕ × ℕ) :=
  [(0, 1, 3), (0, 2, 5), (1, 3, 6), (1, 4, 8), (2, 4, 7), (2, 5, 9),
   (3, 1, 0), (3, 6, 10), (3, 7, 12), (3, 4, 5), (4, 7, 11), (4, 8, 13),
   (5, 2, 0), (5, 8, 12), (5, 9, 14), (5, 4, 3), (6, 3, 1), (6, 7, 8),
   (7, 4, 2), (7, 8, 9), (8, 4, 1), (8, 7, 6), (9, 5, 2), (9, 8, 7),
   (10, 6, 3), (10, 11, 12), (11, 7, 4), (11, 12, 13), (12, 7, 3), (12, 8, 5),
   (12, 11, 10), (12, 13, 14), (13, 8, 4), (13, 12, 11), (14, 9, 5), (14, 13, 12)]

/-- The number of legal moves of an occupancy mask: candidate jumps whose
source and jumped bits are set and whose landing bit is clear. -/
def maskMoves (mask : ℕ) : ℕ :=
  candIdxTriples.countP
    (fun t => mask.testBit t.1 && (mask.testBit t.2.1 && !mask.testBit t.2.2))

/-- `maskMoves` written as plain bit arithmetic, term by term, for fast
kernel evaluation. -/
def maskMovesArith (m : ℕ) : ℕ :=
  bitOf m 0 * (bitOf m 1 * (1 - bitOf m 3))
    + bitOf m 0 * (bitOf m 2 * (1 - bitOf m 5))
    + bitOf m 1 * (bitOf m 3 * (1 - bitOf m 6))
    + bitOf m 1 * (bitOf m 4 * (1 - bitOf m 8))
    + bitOf m 2 * (bitOf m 4 * (1 - bitOf m 7))
    + bitOf m 2 * (bitOf m 5 * (1 - bitOf m 9))
    + bitOf m 3 * (bitOf m 1 * (1 - bitOf m 0))
    + bitOf m 3 * (bitOf m 6 * (1 - bitOf m 10))
    + bitOf m 3 * (bitOf m 7 * (1 - bitOf m 12))
    + bitOf m 3 * (bitOf m 4 * (1 - bitOf m 5))
    + bitOf m 4 * (bitOf m 7 * (1 - bitOf m 11))
    + bitOf m 4 * (bitOf m 8 * (1 - bitOf m 13))
    + bitOf m 5 * (bitOf m 2 * (1 - bitOf m 0))
    + bitOf m 5 * (bitOf m 8 * (1 - bitOf m 12))
    + bitOf m 5 * (bitOf m 9 * (1 - bitOf m 14))
    + bitOf m 5 * (bitOf m 4 * (1 - bitOf m 3))
    + bitOf m 6 * (bitOf m 3 * (1 - bitOf m 1))
    + bitOf m 6 * (bitOf m 7 * (1 - bitOf m 8))
    + bitOf m 7 * (bitOf m 4 * (1 - bitOf m 2))
    + bitOf m 7 * (bitOf m 8 * (1 - bitOf m 9))
    + bitOf m 8 * (bitOf m 4 * (1 - bitOf m 1))
    + bitOf m 8 * (bitOf m 7 * (1 - bitOf m 6))
    + bitOf m 9 * (bitOf m 5 * (1 - bitOf m 2))
    + bitOf m 9 * (bitOf m 8 * (1 - bitOf m 7))
    + bitOf m 10 * (bitOf m 6 * (1 - bitOf m 3))
    + bitOf m 10 * (bitOf m 11 * (1 - bitOf m 12))
    + bitOf m 11 * (bitOf m 7 * (1 - bitOf m 4))
    + bitOf m 11 * (bitOf m 12 * (1 - bitOf m 13))
    + bitOf m 12 * (bitOf m 7 * (1 - bitOf m 3))
    + bitOf m 12 * (bitOf m 8 * (1 - bitOf m 5))
    + bitOf m 12 * (bitOf m 11 * (1 - bitOf m 10))
    + bitOf m 12 * (bitOf m 13 * (1 - bitOf m 14))
    + bitOf m 13 * (bitOf m 8 * (1 - bitOf m 4))
    + bitOf m 13 * (bitOf m 12 * (1 - bitOf m 11))
    + bitOf m 14 * (bitOf m 9 * (1 - bitOf m 5))
    + bitOf m 14 * (bitOf m 13 * (1 - bitOf m 12))

lemma bitOf_testBit (m i : ℕ) : bitOf m i = if m.testBit i then 1 else 0 := by
  have h : (1 : ℕ) &&& m >>> i = m >>> i % 2 := by
    rw [Nat.land_comm, Nat.and_one_is_mod]
  simp only [bitOf, Nat.and_one_is_mod, Nat.testBit, h]
  have h2 : m >>> i % 2 = 0 ∨ m >>> i % 2 = 1 := by omega
  rcases h2 with h2 | h2 <;> simp [h2]

lemma ite_bit_mul (a b c : Bool) :
    (if a then (1 : ℕ) else 0) * ((if b then (1 : ℕ) else 0) * (1 - (if c then (1 : ℕ) else 0)))
      = if (a && (b && !c)) then 1 else 0 := by
  cases a <;> cases b <;> cases c <;> simp

lemma maskMoves_eq_arith (mask : ℕ) : maskMovesArith mask = maskMoves mask := by
  simp only [maskMovesArith, bitOf_testBit, ite_bit_mul, maskMoves, candIdxTriples,
    List.countP_cons, List.countP_nil, Nat.zero_add]
  ring

/-- The occupancy bits of the triangle cells of a board, least significant
bit first. -/
def maskOfAux (g : Grid) : List (Fin 9 × Fin 13) → ℕ
  | [] => 0
  | p :: t => (if hasFull (g p.1 p.2) then 1 else 0) + 2 * maskOfAux g t

/-- The 15-bit occupancy mask of a board. -/
def maskOf (g : Grid) : ℕ := maskOfAux g triCells

lemma testBit_maskOfAux (g : Grid) :
    ∀ (l : List (Fin 9 × Fin 13)) (i : ℕ), i < l.length →
      (maskOfAux g l).testBit i
        = hasFull (g (l.getD i (0, 0)).1 (l.getD i (0, 0)).2) := by
  intro l
  induction l with
  | nil => intro i h; simp at h
  | cons p t ih =>
    intro i h
    match i with
    | 0 =>
      rw [maskOfAux, Nat.testBit_zero]
      by_cases hc : hasFull (g p.1 p.2) <;> simp [hc, Nat.add_mul_mod_self_left]
    | i + 1 =>
      rw [maskOfAux, Nat.testBit_add_one]
      have hdiv : ((if hasFull (g p.1 p.2) then 1 else 0) + 2 * maskOfAux g t) / 2
          = maskOfAux g t := by
        by_cases hc : hasFull (g p.1 p.2)
        · rw [if_pos hc]
          omega
        · rw [if_neg hc]
          omega
      rw [hdiv]
      simp only [List.getD_cons_succ]
      exact ih i (by simpa using h)

lemma testBit_maskOf (g : Grid) (i : ℕ) (h : i < 15) :
    (maskOf g).testBit i
      = hasFull (g (triCells.getD i (0, 0)).1 (triCells.getD i (0, 0)).2) :=
  testBit_maskOfAux g triCells i (by simpa [triCells] using h)

lemma maskOfAux_lt (g : Grid) : ∀ l : List (Fin 9 × Fin 13), maskOfAux g l < 2 ^ l.length := by
  intro l
  induction l with
  | nil => simp [maskOfAux]
  | cons p t ih =>
    rw [maskOfAux, List.length_cons, pow_succ]
    by_cases hc : hasFull (g p.1 p.2) <;> simp [hc] <;> omega

lemma maskOf_lt (g : Grid) : maskOf g < 32768 := by
  have h := maskOfAux_lt g triCells
  have he : (2 : ℕ) ^ triCells.length = 32768 := by decide
  rw [he] at h
  exact h

/-- Moves whose three cells all lie in the triangle. -/
def tripleOKBool (m : Move) : Bool :=
  decide ((m.row, m.col) ∈ triCells) &&
    (triCells.any (fun q => (((q.1 : ℕ) : ℤ) == adjR m) && (((q.2 : ℕ) : ℤ) == adjC m)) &&
     triCells.any (fun q => (((q.1 : ℕ) : ℤ) == landR m) && (((q.2 : ℕ) : ℤ) == landC m)))

/-- The 36 candidate moves of the scan whose cells are all in the triangle. -/
def candMoves : List Move := allMoves.filter tripleOKBool

/-- Index of a move's source cell in `triCells`. -/
def srcIdx (m : Move) : ℕ := triCells.findIdx (fun q => q == (m.row, m.col))

/-- Index in `triCells` of the triangle cell at integer coordinates. -/
def cellIdxZ (r c : ℤ) : ℕ :=
  triCells.findIdx (fun q => (((q.1 : ℕ) : ℤ) == r) && (((q.2 : ℕ) : ℤ) == c))

/-- A candidate move as a triple of `triCells` indices. -/
def toIdx (m : Move) : ℕ × ℕ × ℕ :=
  (srcIdx m, cellIdxZ (adjR m) (adjC m), cellIdxZ (landR m) (landC m))

lemma cand_map : candMoves.map toIdx = candIdxTriples := by decide

lemma cand_src_facts : ∀ m ∈ candMoves, (toIdx m).1 < 15 ∧
    triCells.getD (toIdx m).1 (0, 0) = (m.row, m.col) := by decide

lemma cand_adj_facts : ∀ m ∈ candMoves, (toIdx m).2.1 < 15 ∧
    (((triCells.getD (toIdx m).2.1 (0, 0)).1 : ℕ) : ℤ) = adjR m ∧
    (((triCells.getD (toIdx m).2.1 (0, 0)).2 : ℕ) : ℤ) = adjC m := by decide

lemma cand_land_facts : ∀ m ∈ candMoves, (toIdx m).2.2 < 15 ∧
    (((triCells.getD (toIdx m).2.2 (0, 0)).1 : ℕ) : ℤ) = landR m ∧
    (((triCells.getD (toIdx m).2.2 (0, 0)).2 : ℕ) : ℤ) = landC m := by decide

lemma getD_triCells_mem : ∀ i < 15, triCells.getD i (0, 0) ∈ triCells := by decide

lemma squares_coords (g : Grid) {r c : ℤ} {q : Fin 9 × Fin 13}
    (hr : ((q.1 : ℕ) : ℤ) = r) (hc : ((q.2 : ℕ) : ℤ) = c) :
    squares g r c = g q.1 q.2 := by
  rw [← hr, ← hc, squares_fin]

/-- A move legal on a well-formed board has all three cells in the triangle. -/
lemma tripleOK_of_legal {g : Grid} (hg : GoodGrid g) {m : Move}
    (h : legalBool g m = true) : tripleOKBool m = true := by
  obtain ⟨hsrc, hadj, hland⟩ := legalBool_parts h
  have hbadj := bnds_of_hasFull _ _ _ hadj
  have hbland := bnds_of_squares_eq_zero _ _ _ hland
  obtain ⟨htriSrc, htriAdj, htriLand⟩ := applyMove_cells_tri hg h
  rw [tripleOKBool]
  simp only [Bool.and_eq_true, decide_eq_true_eq, List.any_eq_true, beq_iff_eq]
  refine ⟨htriSrc, ⟨toCell _ _ hbadj, htriAdj, ?_, ?_⟩, ⟨toCell _ _ hbland, htriLand, ?_, ?_⟩⟩
  · exact toCell_coe_fst _ _ hbadj
  · exact toCell_coe_snd _ _ hbadj
  · exact toCell_coe_fst _ _ hbland
  · exact toCell_coe_snd _ _ hbland

/-- On a well-formed board, the legality of a candidate move is exactly the
bit test of its index triple against the board's occupancy mask. -/
lemma legalBool_eq_bits {g : Grid} (hg : GoodGrid g) :
    ∀ m ∈ candMoves, legalBool g m =
      ((maskOf g).testBit (toIdx m).1 &&
        ((maskOf g).testBit (toIdx m).2.1 && !(maskOf g).testBit (toIdx m).2.2)) := by
  intro m hm
  obtain ⟨h1, e1⟩ := cand_src_facts m hm
  obtain ⟨h2, e2r, e2c⟩ := cand_adj_facts m hm
  obtain ⟨h3, e3r, e3c⟩ := cand_land_facts m hm
  rw [testBit_maskOf g _ h1, testBit_maskOf g _ h2, testBit_maskOf g _ h3, e1]
  rw [legalBool, squares_coords g e2r e2c, squares_coords g e3r e3c]
  have hmem := getD_triCells_mem _ h3
  have hv := hg (triCells.getD (toIdx m).2.2 (0, 0))
  rw [if_pos hmem] at hv
  rcases hv with hv | hv | hv <;> rw [hv] <;> rfl

/-- On a well-formed board the number of generated moves is the move count
of its occupancy mask. -/
lemma legalMoves_length_eq_maskMoves {g : Grid} (hg : GoodGrid g) :
    (legalMoves g).length = maskMoves (maskOf g) := by
  have step1 : (legalMoves g).length = allMoves.countP (legalBool g) := by
    rw [legalMoves, List.countP_eq_length_filter]
  have step2 : allMoves.countP (legalBool g) = candMoves.countP (legalBool g) := by
    rw [candMoves, List.countP_filter]
    apply List.countP_congr
    intro m _
    constructor
    · intro hleg
      rw [hleg, tripleOK_of_legal hg hleg]
      rfl
    · intro hand
      exact (Bool.and_eq_true _ _).mp hand |>.1
  have step3 : candMoves.countP (legalBool g) = maskMoves (maskOf g) := by
    rw [maskMoves, ← cand_map, List.countP_map]
    apply List.countP_congr
    intro m hm
    exact iff_of_eq (congrArg (· = true) (legalBool_eq_bits hg m hm))
  omega

/-! ## The reachable occupancy masks

The occupancy masks of the boards the search can reach, certified by a
search tree: the initial mask is in the tree, and the tree is closed under
every applicable jump (checked by kernel computation over its 1651
entries). -/

/-- A binary search tree of masks. -/
inductive MTree
  | leaf
  | node (l : MTree) (v : ℕ) (r : MTree)

/-- Membership by binary-search descent. -/
def memT : MTree → ℕ → Bool
  | MTree.leaf, _ => false
  | MTree.node l v r, m => if m < v then memT l m else if v < m then memT r m else true

/-- Does `p` hold on every entry of the tree? -/
def allT (p : ℕ → Bool) : MTree → Bool
  | MTree.leaf => true
  | MTree.node l v r => p v && (allT p l && allT p r)

lemma allT_memT {p : ℕ → Bool} :
    ∀ t : MTree, allT p t = true → ∀ m, memT t m = true → p m = true := by
  intro t
  induction t with
  | leaf => intro _ m hm; simp [memT] at hm
  | node l v r ihl ihr =>
    intro h m hm
    rw [allT, Bool.and_eq_true, Bool.and_eq_true] at h
    rw [memT] at hm
    by_cases h1 : m < v
    · rw [if_pos h1] at hm
      exact ihl h.2.1 m hm
    · rw [if_neg h1] at hm
      by_cases h2 : v < m
      · rw [if_pos h2] at hm
        exact ihr h.2.2 m hm
      · have he : m = v := by omega
        rw [he]
        exact h.1

/-- The 1651 occupancy masks reachable from the initial layout, as a
balanced search tree. -/
def reachTree : MTree :=
  (.node (.node (.node (.node (.node (.node (.node (.node (.node (.node .leaf 13 (.node .leaf 35
    .leaf)) 40 (.node .leaf 47 (.node .leaf 57 .leaf))) 101 (.node (.node .leaf 105 (.node .leaf
    161 .leaf)) 173 (.node .leaf 235 (.node .leaf 265 .leaf)))) 299 (.node (.node (.node .leaf 353
    (.node .leaf 523 .leaf)) 553 (.node .leaf 577 (.node .leaf 649 .leaf))) 813 (.node (.node
    .leaf 1027 (.node .leaf 1028 .leaf)) 1032 (.node (.node .leaf 1039 .leaf) 1045 (.node .leaf
    1049 .leaf))))) 1057 (.node (.node (.node (.node .leaf 1062 (.node .leaf 1066 .leaf)) 1069
    (.node .leaf 1072 (.node .leaf 1079 .leaf))) 1083 (.node (.node .leaf 1084 (.node .leaf 1093
    .leaf)) 1097 (.node (.node .leaf 1120 .leaf) 1127 (.node .leaf 1131 .leaf)))) 1132 (.node
    (.node (.node .leaf 1137 (.node .leaf 1149 .leaf)) 1153 (.node .leaf 1165 (.node .leaf 1187
    .leaf))) 1192 (.node (.node .leaf 1199 (.node .leaf 1209 .leaf)) 1253 (.node (.node .leaf 1257
    .leaf) 1287 (.node .leaf 1291 .leaf)))))) 1292 (.node (.node (.node (.node (.node .leaf 1314
    (.node .leaf 1317 .leaf)) 1321 (.node .leaf 1331 (.node .leaf 1336 .leaf))) 1345 (.node (.node
    .leaf 1357 (.node .leaf 1379 .leaf)) 1384 (.node (.node .leaf 1401 .leaf) 1538 (.node .leaf
    1545 .leaf)))) 1555 (.node (.node (.node .leaf 1560 (.node .leaf 1568 .leaf)) 1575 (.node
    .leaf 1579 (.node .leaf 1580 .leaf))) 1585 (.node (.node .leaf 1603 (.node .leaf 1608 .leaf))
    1625 (.node (.node .leaf 1633 .leaf) 1645 (.node .leaf 1675 .leaf))))) 1705 (.node (.node
    (.node (.node .leaf 1729 (.node .leaf 1793 .leaf)) 1827 (.node .leaf 1832 (.node .leaf 1839
    .leaf))) 1893 (.node (.node .leaf 1897 (.node .leaf 2053 .leaf)) 2057 (.node (.node .leaf 2080
    .leaf) 2087 (.node .leaf 2091 .leaf)))) 2092 (.node (.node (.node .leaf 2097 (.node .leaf 2109
    .leaf)) 2145 (.node .leaf 2157 (.node .leaf 2217 .leaf))) 2361 (.node (.node .leaf 2563 (.node
    .leaf 2568 .leaf)) 2585 (.node (.node .leaf 2593 .leaf) 2605 (.node .leaf 2633 .leaf)))))))
    3072 (.node (.node (.node (.node (.node (.node .leaf 3079 (.node .leaf 3083 .leaf)) 3084
    (.node .leaf 3089 (.node .leaf 3106 .leaf))) 3109 (.node (.node .leaf 3113 (.node .leaf 3118
    .leaf)) 3123 (.node .leaf 3128 (.node .leaf 3135 .leaf)))) 3137 (.node (.node (.node .leaf
    3149 (.node .leaf 3171 .leaf)) 3172 (.node .leaf 3176 (.node .leaf 3183 .leaf))) 3189 (.node
    (.node .leaf 3193 (.node .leaf 3209 .leaf)) 3232 (.node (.node .leaf 3239 .leaf) 3243 (.node
    .leaf 3244 .leaf))))) 3297 (.node (.node (.node (.node .leaf 3309 (.node .leaf 3323 .leaf))
    3331 (.node .leaf 3336 (.node .leaf 3361 .leaf))) 3373 (.node (.node .leaf 3387 (.node .leaf
    3401 .leaf)) 3441 (.node (.node .leaf 3491 .leaf) 3496 (.node .leaf 3561 .leaf)))) 3585 (.node
    (.node (.node .leaf 3594 (.node .leaf 3611 .leaf)) 3619 (.node .leaf 3624 (.node .leaf 3631
    .leaf))) 3648 (.node (.node .leaf 3659 (.node .leaf 3665 .leaf)) 3685 (.node (.node .leaf 3689
    .leaf) 3715 (.node .leaf 3720 .leaf)))))) 3785 (.node (.node (.node (.node (.node .leaf 3849
    (.node .leaf 4096 .leaf)) 4103 (.node .leaf 4107 (.node .leaf 4108 .leaf))) 4113 (.node (.node
    .leaf 4125 (.node .leaf 4130 .leaf)) 4133 (.node (.node .leaf 4137 .leaf) 4142 (.node .leaf
    4147 .leaf)))) 4152 (.node (.node (.node .leaf 4159 (.node .leaf 4161 .leaf)) 4173 (.node
    .leaf 4195 (.node .leaf 4196 .leaf))) 4200 (.node (.node .leaf 4207 (.node .leaf 4213 .leaf))
    4217 (.node (.node .leaf 4229 .leaf) 4233 (.node .leaf 4256 .leaf))))) 4263 (.node (.node
    (.node (.node .leaf 4267 (.node .leaf 4268 .leaf)) 4285 (.node .leaf 4321 (.node .leaf 4333
    .leaf))) 4347 (.node (.node .leaf 4355 (.node .leaf 4360 .leaf)) 4367 (.node (.node .leaf 4385
    .leaf) 4394 (.node .leaf 4397 .leaf)))) 4411 (.node (.node (.node .leaf 4421 (.node .leaf 4425
    .leaf)) 4448 (.node .leaf 4465 (.node .leaf 4493 .leaf))) 4515 (.node (.node .leaf 4520 (.node
    .leaf 4585 .leaf)) 4609 (.node (.node .leaf 4618 .leaf) 4621 (.node .leaf 4635 .leaf))))))))
    4643 (.node (.node (.node (.node (.node (.node (.node .leaf 4648 (.node .leaf 4655 .leaf))
    4665 (.node .leaf 4672 (.node .leaf 4683 .leaf))) 4689 (.node (.node .leaf 4709 (.node .leaf
    4713 .leaf)) 4739 (.node .leaf 4744 (.node .leaf 4761 .leaf)))) 4769 (.node (.node (.node
    .leaf 4809 (.node .leaf 4873 .leaf)) 4907 (.node .leaf 4925 (.node .leaf 4961 .leaf))) 5033
    (.node (.node .leaf 5122 (.node .leaf 5125 .leaf)) 5129 (.node (.node .leaf 5134 .leaf) 5139
    (.node .leaf 5144 .leaf))))) 5151 (.node (.node (.node (.node .leaf 5152 (.node .leaf 5159
    .leaf)) 5163 (.node .leaf 5164 (.node .leaf 5169 .leaf))) 5174 (.node (.node .leaf 5178 (.node
    .leaf 5181 .leaf)) 5187 (.node (.node .leaf 5188 .leaf) 5192 (.node .leaf 5199 .leaf)))) 5205
    (.node (.node (.node .leaf 5209 (.node .leaf 5214 .leaf)) 5217 (.node .leaf 5222 (.node .leaf
    5226 .leaf))) 5229 (.node (.node .leaf 5232 (.node .leaf 5239 .leaf)) 5243 (.node (.node .leaf
    5244 .leaf) 5248 (.node .leaf 5255 .leaf)))))) 5259 (.node (.node (.node (.node (.node .leaf
    5260 (.node .leaf 5265 .leaf)) 5282 (.node .leaf 5285 (.node .leaf 5289 .leaf))) 5299 (.node
    (.node .leaf 5304 (.node .leaf 5311 .leaf)) 5313 (.node (.node .leaf 5322 .leaf) 5325 (.node
    .leaf 5347 .leaf)))) 5352 (.node (.node (.node .leaf 5359 (.node .leaf 5365 .leaf)) 5369
    (.node .leaf 5377 (.node .leaf 5382 .leaf))) 5386 (.node (.node .leaf 5389 (.node .leaf 5411
    .leaf)) 5412 (.node (.node .leaf 5416 .leaf) 5423 (.node .leaf 5429 .leaf))))) 5433 (.node
    (.node (.node (.node .leaf 5440 (.node .leaf 5447 .leaf)) 5452 (.node .leaf 5474 (.node .leaf
    5477 .leaf))) 5481 (.node (.node .leaf 5519 (.node .leaf 5537 .leaf)) 5546 (.node (.node .leaf
    5549 .leaf) 5573 (.node .leaf 5600 .leaf)))) 5635 (.node (.node (.node .leaf 5636 (.node .leaf
    5640 .leaf)) 5647 (.node .leaf 5650 (.node .leaf 5657 .leaf))) 5665 (.node (.node .leaf 5670
    (.node .leaf 5674 .leaf)) 5677 (.node (.node .leaf 5691 .leaf) 5698 (.node .leaf 5701
    .leaf))))))) 5705 (.node (.node (.node (.node (.node (.node .leaf 5715 (.node .leaf 5720
    .leaf)) 5727 (.node .leaf 5728 (.node .leaf 5735 .leaf))) 5739 (.node (.node .leaf 5740 (.node
    .leaf 5745 .leaf)) 5754 (.node (.node .leaf 5761 .leaf) 5787 (.node .leaf 5795 .leaf)))) 5800
    (.node (.node (.node .leaf 5835 (.node .leaf 5841 .leaf)) 5865 (.node .leaf 5887 (.node .leaf
    5888 .leaf))) 5895 (.node (.node .leaf 5899 (.node .leaf 5900 .leaf)) 5905 (.node (.node .leaf
    5922 .leaf) 5929 (.node .leaf 5951 .leaf))))) 5953 (.node (.node (.node (.node .leaf 5965
    (.node .leaf 5987 .leaf)) 5992 (.node .leaf 6005 (.node .leaf 6025 .leaf))) 6055 (.node (.node
    .leaf 6059 (.node .leaf 6060 .leaf)) 6113 (.node (.node .leaf 6125 .leaf) 6147 (.node .leaf
    6152 .leaf)))) 6159 (.node (.node (.node .leaf 6169 (.node .leaf 6177 .leaf)) 6186 (.node
    .leaf 6189 (.node .leaf 6203 .leaf))) 6213 (.node (.node .leaf 6217 (.node .leaf 6240 .leaf))
    6251 (.node (.node .leaf 6257 .leaf) 6329 (.node .leaf 6441 .leaf)))))) 6665 (.node (.node
    (.node (.node (.node .leaf 6699 (.node .leaf 6753 .leaf)) 7169 (.node .leaf 7174 (.node .leaf
    7178 .leaf))) 7181 (.node (.node .leaf 7195 (.node .leaf 7203 .leaf)) 7204 (.node (.node .leaf
    7208 .leaf) 7215 (.node .leaf 7218 .leaf)))) 7232 (.node (.node (.node .leaf 7239 (.node .leaf
    7243 .leaf)) 7244 (.node .leaf 7249 (.node .leaf 7266 .leaf))) 7269 (.node (.node .leaf 7273
    (.node .leaf 7283 .leaf)) 7288 (.node (.node .leaf 7295 .leaf) 7299 (.node .leaf 7304
    .leaf))))) 7355 (.node (.node (.node (.node .leaf 7369 (.node .leaf 7403 .leaf)) 7409 (.node
    .leaf 7433 (.node .leaf 7456 .leaf))) 7463 (.node (.node .leaf 7467 (.node .leaf 7468 .leaf))
    7473 (.node (.node .leaf 7521 .leaf) 7533 (.node .leaf 7593 .leaf)))) 7680 (.node (.node
    (.node .leaf 7691 (.node .leaf 7714 .leaf)) 7721 (.node .leaf 7745 (.node .leaf 7771 .leaf)))
    7779 (.node (.node .leaf 7784 (.node .leaf 7791 .leaf)) 7939 (.node (.node .leaf 7944 .leaf)
    8009 (.node .leaf 8195 .leaf))))))))) 8200 (.node (.node (.node (.node (.node (.node (.node
    (.node .leaf 8207 (.node .leaf 8217 .leaf)) 8225 (.node .leaf 8234 (.node .leaf 8237 .leaf)))
    8251 (.node (.node .leaf 8261 (.node .leaf 8265 .leaf)) 8288 (.node .leaf 8299 (.node .leaf
    8305 .leaf)))) 8377 (.node (.node (.node .leaf 8489 (.node .leaf 8713 .leaf)) 8747 (.node
    .leaf 8801 (.node .leaf 9217 .leaf))) 9222 (.node (.node .leaf 9226 (.node .leaf 9229 .leaf))
    9243 (.node (.node .leaf 9251 .leaf) 9252 (.node .leaf 9256 .leaf))))) 9263 (.node (.node
    (.node (.node .leaf 9266 (.node .leaf 9280 .leaf)) 9287 (.node .leaf 9291 (.node .leaf 9292
    .leaf))) 9297 (.node (.node .leaf 9314 (.node .leaf 9317 .leaf)) 9321 (.node (.node .leaf 9331
    .leaf) 9336 (.node .leaf 9343 .leaf)))) 9347 (.node (.node (.node .leaf 9352 (.node .leaf 9403
    .leaf)) 9417 (.node .leaf 9451 (.node .leaf 9457 .leaf))) 9481 (.node (.node .leaf 9504 (.node
    .leaf 9511 .leaf)) 9515 (.node (.node .leaf 9516 .leaf) 9521 (.node .leaf 9569 .leaf))))))
    9581 (.node (.node (.node (.node (.node .leaf 9641 (.node .leaf 9728 .leaf)) 9739 (.node .leaf
    9762 (.node .leaf 9769 .leaf))) 9793 (.node (.node .leaf 9819 (.node .leaf 9827 .leaf)) 9832
    (.node (.node .leaf 9839 .leaf) 9987 (.node .leaf 9992 .leaf)))) 10057 (.node (.node (.node
    .leaf 10281 (.node .leaf 11307 .leaf)) 11361 (.node .leaf 12293 (.node .leaf 12297 .leaf)))
    12320 (.node (.node .leaf 12327 (.node .leaf 12331 .leaf)) 12332 (.node (.node .leaf 12337
    .leaf) 12349 (.node .leaf 12385 .leaf))))) 12397 (.node (.node (.node (.node .leaf 12457
    (.node .leaf 12601 .leaf)) 12803 (.node .leaf 12808 (.node .leaf 12825 .leaf))) 12833 (.node
    (.node .leaf 12845 (.node .leaf 12873 .leaf)) 13312 (.node (.node .leaf 13319 .leaf) 13323
    (.node .leaf 13324 .leaf)))) 13329 (.node (.node (.node .leaf 13346 (.node .leaf 13349 .leaf))
    13353 (.node .leaf 13358 (.node .leaf 13363 .leaf))) 13368 (.node (.node .leaf 13375 (.node
    .leaf 13377 .leaf)) 13389 (.node (.node .leaf 13411 .leaf) 13412 (.node .leaf 13416
    .leaf))))))) 13423 (.node (.node (.node (.node (.node (.node .leaf 13429 (.node .leaf 13433
    .leaf)) 13449 (.node .leaf 13472 (.node .leaf 13479 .leaf))) 13483 (.node (.node .leaf 13484
    (.node .leaf 13537 .leaf)) 13549 (.node .leaf 13563 (.node .leaf 13571 .leaf)))) 13576 (.node
    (.node (.node .leaf 13601 (.node .leaf 13613 .leaf)) 13627 (.node .leaf 13641 (.node .leaf
    13681 .leaf))) 13731 (.node (.node .leaf 13736 (.node .leaf 13801 .leaf)) 13825 (.node (.node
    .leaf 13834 .leaf) 13851 (.node .leaf 13859 .leaf))))) 13864 (.node (.node (.node (.node .leaf
    13871 (.node .leaf 13888 .leaf)) 13899 (.node .leaf 13905 (.node .leaf 13925 .leaf))) 13929
    (.node (.node .leaf 13955 (.node .leaf 13960 .leaf)) 14025 (.node (.node .leaf 14089 .leaf)
    15393 (.node .leaf 15467 .leaf)))) 16386 (.node (.node (.node .leaf 16389 (.node .leaf 16393
    .leaf)) 16398 (.node .leaf 16403 (.node .leaf 16408 .leaf))) 16415 (.node (.node .leaf 16416
    (.node .leaf 16423 .leaf)) 16427 (.node (.node .leaf 16428 .leaf) 16433 (.node .leaf 16442
    .leaf)))))) 16445 (.node (.node (.node (.node (.node .leaf 16452 (.node .leaf 16456 .leaf))
    16463 (.node .leaf 16469 (.node .leaf 16473 .leaf))) 16481 (.node (.node .leaf 16490 (.node
    .leaf 16493 .leaf)) 16496 (.node (.node .leaf 16519 .leaf) 16523 (.node .leaf 16524 .leaf))))
    16541 (.node (.node (.node .leaf 16546 (.node .leaf 16549 .leaf)) 16553 (.node .leaf 16568
    (.node .leaf 16577 .leaf))) 16589 (.node (.node .leaf 16616 (.node .leaf 16623 .leaf)) 16641
    (.node (.node .leaf 16653 .leaf) 16675 (.node .leaf 16680 .leaf))))) 16687 (.node (.node
    (.node (.node .leaf 16697 (.node .leaf 16741 .leaf)) 16745 (.node .leaf 16899 (.node .leaf
    16904 .leaf))) 16911 (.node (.node .leaf 16921 (.node .leaf 16929 .leaf)) 16938 (.node (.node
    .leaf 16941 .leaf) 16955 (.node .leaf 16965 .leaf)))) 16969 (.node (.node (.node .leaf 16992
    (.node .leaf 17003 .leaf)) 17009 (.node .leaf 17025 (.node .leaf 17037 .leaf))) 17059 (.node
    (.node .leaf 17064 (.node .leaf 17081 .leaf)) 17099 (.node (.node .leaf 17129 .leaf) 17163
    (.node .leaf 17193 .leaf)))))))) 17217 (.node (.node (.node (.node (.node (.node (.node .leaf
    17408 (.node .leaf 17415 .leaf)) 17419 (.node .leaf 17420 (.node .leaf 17425 .leaf))) 17430
    (.node (.node .leaf 17434 (.node .leaf 17437 .leaf)) 17442 (.node .leaf 17445 (.node .leaf
    17449 .leaf)))) 17454 (.node (.node (.node .leaf 17459 (.node .leaf 17460 .leaf)) 17464 (.node
    .leaf 17471 (.node .leaf 17473 .leaf))) 17482 (.node (.node .leaf 17485 (.node .leaf 17488
    .leaf)) 17495 (.node (.node .leaf 17500 .leaf) 17507 (.node .leaf 17508 .leaf))))) 17512
    (.node (.node (.node (.node .leaf 17519 (.node .leaf 17522 .leaf)) 17525 (.node .leaf 17529
    (.node .leaf 17538 .leaf))) 17541 (.node (.node .leaf 17545 (.node .leaf 17550 .leaf)) 17555
    (.node (.node .leaf 17560 .leaf) 17567 (.node .leaf 17568 .leaf)))) 17575 (.node (.node (.node
    .leaf 17579 (.node .leaf 17580 .leaf)) 17585 (.node .leaf 17594 (.node .leaf 17597 .leaf)))
    17603 (.node (.node .leaf 17604 (.node .leaf 17608 .leaf)) 17621 (.node (.node .leaf 17625
    .leaf) 17633 (.node .leaf 17645 .leaf)))))) 17648 (.node (.node (.node (.node (.node .leaf
    17659 (.node .leaf 17667 .leaf)) 17668 (.node .leaf 17672 (.node .leaf 17679 .leaf))) 17685
    (.node (.node .leaf 17689 (.node .leaf 17697 .leaf)) 17702 (.node (.node .leaf 17706 .leaf)
    17709 (.node .leaf 17712 .leaf)))) 17719 (.node (.node (.node .leaf 17723 (.node .leaf 17724
    .leaf)) 17733 (.node .leaf 17737 (.node .leaf 17759 .leaf))) 17760 (.node (.node .leaf 17767
    (.node .leaf 17772 .leaf)) 17777 (.node (.node .leaf 17786 .leaf) 17789 (.node .leaf 17793
    .leaf))))) 17805 (.node (.node (.node (.node .leaf 17827 (.node .leaf 17832 .leaf)) 17867
    (.node .leaf 17897 (.node .leaf 17921 .leaf))) 17930 (.node (.node .leaf 17933 (.node .leaf
    17936 .leaf)) 17943 (.node (.node .leaf 17947 .leaf) 17948 (.node .leaf 17955 .leaf)))) 17956
    (.node (.node (.node .leaf 17960 (.node .leaf 17967 .leaf)) 17970 (.node .leaf 17977 (.node
    .leaf 17984 .leaf))) 17995 (.node (.node .leaf 18001 (.node .leaf 18013 .leaf)) 18021 (.node
    (.node .leaf 18025 .leaf) 18035 (.node .leaf 18040 .leaf))))))) 18051 (.node (.node (.node
    (.node (.node (.node .leaf 18056 (.node .leaf 18063 .leaf)) 18073 (.node .leaf 18081 (.node
    .leaf 18090 .leaf))) 18103 (.node (.node .leaf 18107 (.node .leaf 18108 .leaf)) 18117 (.node
    (.node .leaf 18121 .leaf) 18144 (.node .leaf 18161 .leaf)))) 18173 (.node (.node (.node .leaf
    18178 (.node .leaf 18181 .leaf)) 18185 (.node .leaf 18195 (.node .leaf 18200 .leaf))) 18208
    (.node (.node .leaf 18219 (.node .leaf 18225 .leaf)) 18237 (.node (.node .leaf 18243 .leaf)
    18248 (.node .leaf 18265 .leaf))))) 18273 (.node (.node (.node (.node .leaf 18299 (.node .leaf
    18341 .leaf)) 18345 (.node .leaf 18433 (.node .leaf 18438 .leaf))) 18442 (.node (.node .leaf
    18445 (.node .leaf 18460 .leaf)) 18467 (.node (.node .leaf 18468 .leaf) 18472 (.node .leaf
    18479 .leaf)))) 18485 (.node (.node (.node .leaf 18496 (.node .leaf 18508 .leaf)) 18533 (.node
    .leaf 18537 (.node .leaf 18568 .leaf))) 18575 (.node (.node .leaf 18585 (.node .leaf 18593
    .leaf)) 18602 (.node (.node .leaf 18605 .leaf) 18629 (.node .leaf 18656 .leaf)))))) 18693
    (.node (.node (.node (.node (.node .leaf 18720 (.node .leaf 18749 .leaf)) 18857 (.node .leaf
    18944 (.node .leaf 18951 .leaf))) 18955 (.node (.node .leaf 18956 (.node .leaf 18961 .leaf))
    18973 (.node (.node .leaf 18978 .leaf) 18981 (.node .leaf 18985 .leaf)))) 19000 (.node (.node
    (.node .leaf 19007 (.node .leaf 19009 .leaf)) 19021 (.node .leaf 19048 (.node .leaf 19055
    .leaf))) 19061 (.node (.node .leaf 19081 (.node .leaf 19115 .leaf)) 19169 (.node (.node .leaf
    19225 .leaf) 19233 (.node .leaf 19245 .leaf))))) 19459 (.node (.node (.node (.node .leaf 19460
    (.node .leaf 19464 .leaf)) 19471 (.node .leaf 19477 (.node .leaf 19481 .leaf))) 19486 (.node
    (.node .leaf 19489 (.node .leaf 19494 .leaf)) 19498 (.node (.node .leaf 19501 .leaf) 19504
    (.node .leaf 19511 .leaf)))) 19516 (.node (.node (.node .leaf 19522 (.node .leaf 19525 .leaf))
    19529 (.node .leaf 19534 (.node .leaf 19540 .leaf))) 19552 (.node (.node .leaf 19559 (.node
    .leaf 19563 .leaf)) 19564 (.node (.node .leaf 19581 .leaf) 19585 (.node .leaf 19590
    .leaf)))))))))) 19594 (.node (.node (.node (.node (.node (.node (.node (.node (.node .leaf
    19597 (.node .leaf 19611 .leaf)) 19619 (.node .leaf 19620 (.node .leaf 19624 .leaf))) 19631
    (.node (.node .leaf 19648 (.node .leaf 19655 .leaf)) 19660 (.node .leaf 19665 (.node .leaf
    19682 .leaf)))) 19685 (.node (.node (.node .leaf 19689 (.node .leaf 19711 .leaf)) 19712 (.node
    .leaf 19719 (.node .leaf 19724 .leaf))) 19729 (.node (.node .leaf 19746 (.node .leaf 19749
    .leaf)) 19753 (.node (.node .leaf 19775 .leaf) 19789 (.node .leaf 19816 .leaf))))) 19829
    (.node (.node (.node (.node .leaf 19849 (.node .leaf 19879 .leaf)) 19883 (.node .leaf 19884
    (.node .leaf 19919 .leaf))) 19937 (.node (.node .leaf 19946 (.node .leaf 19949 .leaf)) 19970
    (.node (.node .leaf 19973 .leaf) 19977 (.node .leaf 19982 .leaf)))) 19987 (.node (.node (.node
    .leaf 19992 (.node .leaf 19999 .leaf)) 20000 (.node .leaf 20007 (.node .leaf 20011 .leaf)))
    20012 (.node (.node .leaf 20017 (.node .leaf 20022 .leaf)) 20026 (.node (.node .leaf 20035
    .leaf) 20036 (.node .leaf 20040 .leaf)))))) 20047 (.node (.node (.node (.node (.node .leaf
    20053 (.node .leaf 20057 .leaf)) 20065 (.node .leaf 20074 (.node .leaf 20077 .leaf))) 20080
    (.node (.node .leaf 20087 (.node .leaf 20092 .leaf)) 20096 (.node (.node .leaf 20103 .leaf)
    20107 (.node .leaf 20108 .leaf)))) 20130 (.node (.node (.node .leaf 20137 (.node .leaf 20161
    .leaf)) 20173 (.node .leaf 20187 (.node .leaf 20195 .leaf))) 20200 (.node (.node .leaf 20225
    (.node .leaf 20237 .leaf)) 20251 (.node (.node .leaf 20259 .leaf) 20260 (.node .leaf 20264
    .leaf))))) 20271 (.node (.node (.node (.node .leaf 20305 (.node .leaf 20325 .leaf)) 20329
    (.node .leaf 20351 (.node .leaf 20355 .leaf))) 20360 (.node (.node .leaf 20425 (.node .leaf
    20459 .leaf)) 20483 (.node (.node .leaf 20484 .leaf) 20488 (.node .leaf 20495 .leaf)))) 20501
    (.node (.node (.node .leaf 20505 (.node .leaf 20510 .leaf)) 20513 (.node .leaf 20518 (.node
    .leaf 20522 .leaf))) 20525 (.node (.node .leaf 20528 (.node .leaf 20535 .leaf)) 20539 (.node
    (.node .leaf 20540 .leaf) 20546 (.node .leaf 20549 .leaf))))))) 20553 (.node (.node (.node
    (.node (.node (.node .leaf 20558 (.node .leaf 20564 .leaf)) 20576 (.node .leaf 20583 (.node
    .leaf 20587 .leaf))) 20588 (.node (.node .leaf 20593 (.node .leaf 20605 .leaf)) 20609 (.node
    .leaf 20614 (.node .leaf 20618 .leaf)))) 20621 (.node (.node (.node .leaf 20635 (.node .leaf
    20643 .leaf)) 20644 (.node .leaf 20648 (.node .leaf 20655 .leaf))) 20665 (.node (.node .leaf
    20672 (.node .leaf 20679 .leaf)) 20684 (.node (.node .leaf 20689 .leaf) 20706 (.node .leaf
    20709 .leaf))))) 20713 (.node (.node (.node (.node .leaf 20735 (.node .leaf 20736 .leaf))
    20743 (.node .leaf 20747 (.node .leaf 20748 .leaf))) 20753 (.node (.node .leaf 20765 (.node
    .leaf 20770 .leaf)) 20773 (.node (.node .leaf 20777 .leaf) 20792 (.node .leaf 20799 .leaf))))
    20801 (.node (.node (.node .leaf 20813 (.node .leaf 20840 .leaf)) 20853 (.node .leaf 20873
    (.node .leaf 20903 .leaf))) 20907 (.node (.node .leaf 20908 (.node .leaf 20943 .leaf)) 20961
    (.node (.node .leaf 20970 .leaf) 20973 (.node .leaf 20994 .leaf)))))) 20997 (.node (.node
    (.node (.node (.node .leaf 21001 (.node .leaf 21006 .leaf)) 21011 (.node .leaf 21016 (.node
    .leaf 21023 .leaf))) 21024 (.node (.node .leaf 21031 (.node .leaf 21035 .leaf)) 21036 (.node
    (.node .leaf 21041 .leaf) 21046 (.node .leaf 21050 .leaf)))) 21053 (.node (.node (.node .leaf
    21059 (.node .leaf 21060 .leaf)) 21064 (.node .leaf 21071 (.node .leaf 21077 .leaf))) 21081
    (.node (.node .leaf 21089 (.node .leaf 21098 .leaf)) 21101 (.node (.node .leaf 21104 .leaf)
    21111 (.node .leaf 21116 .leaf))))) 21120 (.node (.node (.node (.node .leaf 21127 (.node .leaf
    21131 .leaf)) 21132 (.node .leaf 21154 (.node .leaf 21161 .leaf))) 21185 (.node (.node .leaf
    21197 (.node .leaf 21211 .leaf)) 21219 (.node (.node .leaf 21224 .leaf) 21249 (.node .leaf
    21261 .leaf)))) 21275 (.node (.node (.node .leaf 21283 (.node .leaf 21284 .leaf)) 21288 (.node
    .leaf 21295 (.node .leaf 21305 .leaf))) 21329 (.node (.node .leaf 21349 (.node .leaf 21353
    .leaf)) 21375 (.node (.node .leaf 21379 .leaf) 21384 (.node .leaf 21449 .leaf)))))))) 21483
    (.node (.node (.node (.node (.node (.node (.node .leaf 21505 (.node .leaf 21510 .leaf)) 21514
    (.node .leaf 21517 (.node .leaf 21520 .leaf))) 21527 (.node (.node .leaf 21531 (.node .leaf
    21532 .leaf)) 21539 (.node .leaf 21540 (.node .leaf 21544 .leaf)))) 21551 (.node (.node (.node
    .leaf 21554 (.node .leaf 21557 .leaf)) 21568 (.node .leaf 21575 (.node .leaf 21579 .leaf)))
    21580 (.node (.node .leaf 21585 (.node .leaf 21594 .leaf)) 21597 (.node (.node .leaf 21602
    .leaf) 21605 (.node .leaf 21609 .leaf))))) 21614 (.node (.node (.node (.node .leaf 21619
    (.node .leaf 21624 .leaf)) 21635 (.node .leaf 21636 (.node .leaf 21640 .leaf))) 21647 (.node
    (.node .leaf 21657 (.node .leaf 21665 .leaf)) 21670 (.node (.node .leaf 21674 .leaf) 21687
    (.node .leaf 21691 .leaf)))) 21692 (.node (.node (.node .leaf 21701 (.node .leaf 21705 .leaf))
    21727 (.node .leaf 21728 (.node .leaf 21735 .leaf))) 21740 (.node (.node .leaf 21745 (.node
    .leaf 21754 .leaf)) 21757 (.node (.node .leaf 21762 .leaf) 21765 (.node .leaf 21769
    .leaf)))))) 21774 (.node (.node (.node (.node (.node .leaf 21791 (.node .leaf 21792 .leaf))
    21799 (.node .leaf 21804 (.node .leaf 21809 .leaf))) 21818 (.node (.node .leaf 21821 (.node
    .leaf 21827 .leaf)) 21828 (.node (.node .leaf 21832 .leaf) 21845 (.node .leaf 21857 .leaf))))
    21872 (.node (.node (.node .leaf 21895 (.node .leaf 21899 .leaf)) 21900 (.node .leaf 21922
    (.node .leaf 21925 .leaf))) 21929 (.node (.node .leaf 21953 (.node .leaf 21965 .leaf)) 21992
    (.node (.node .leaf 22016 .leaf) 22023 (.node .leaf 22027 .leaf))))) 22028 (.node (.node
    (.node (.node .leaf 22033 (.node .leaf 22045 .leaf)) 22050 (.node .leaf 22053 (.node .leaf
    22057 .leaf))) 22062 (.node (.node .leaf 22067 (.node .leaf 22068 .leaf)) 22072 (.node (.node
    .leaf 22081 .leaf) 22090 (.node .leaf 22093 .leaf)))) 22107 (.node (.node (.node .leaf 22115
    (.node .leaf 22116 .leaf)) 22120 (.node .leaf 22127 (.node .leaf 22133 .leaf))) 22146 (.node
    (.node .leaf 22149 (.node .leaf 22153 .leaf)) 22163 (.node (.node .leaf 22168 .leaf) 22176
    (.node .leaf 22211 .leaf))))))) 22216 (.node (.node (.node (.node (.node (.node .leaf 22233
    (.node .leaf 22241 .leaf)) 22267 (.node .leaf 22275 (.node .leaf 22280 .leaf))) 22287 (.node
    (.node .leaf 22297 (.node .leaf 22305 .leaf)) 22314 (.node (.node .leaf 22327 .leaf) 22331
    (.node .leaf 22332 .leaf)))) 22341 (.node (.node (.node .leaf 22345 (.node .leaf 22368 .leaf))
    22385 (.node .leaf 22397 (.node .leaf 22401 .leaf))) 22435 (.node (.node .leaf 22440 (.node
    .leaf 22505 .leaf)) 22528 (.node (.node .leaf 22535 .leaf) 22539 (.node .leaf 22540 .leaf)))))
    22545 (.node (.node (.node (.node .leaf 22557 (.node .leaf 22562 .leaf)) 22565 (.node .leaf
    22569 (.node .leaf 22574 .leaf))) 22584 (.node (.node .leaf 22591 (.node .leaf 22593 .leaf))
    22605 (.node (.node .leaf 22628 .leaf) 22632 (.node .leaf 22639 .leaf)))) 22645 (.node (.node
    (.node .leaf 22661 (.node .leaf 22665 .leaf)) 22688 (.node .leaf 22699 (.node .leaf 22717
    .leaf))) 22753 (.node (.node .leaf 22792 (.node .leaf 22799 .leaf)) 22817 (.node (.node .leaf
    22826 .leaf) 22829 (.node .leaf 22853 .leaf)))))) 22880 (.node (.node (.node (.node (.node
    .leaf 22925 (.node .leaf 22952 .leaf)) 23041 (.node .leaf 23050 (.node .leaf 23053 .leaf)))
    23067 (.node (.node .leaf 23075 (.node .leaf 23080 .leaf)) 23087 (.node (.node .leaf 23097
    .leaf) 23104 (.node .leaf 23115 .leaf)))) 23121 (.node (.node (.node .leaf 23141 (.node .leaf
    23145 .leaf)) 23193 (.node .leaf 23201 (.node .leaf 23305 .leaf))) 23339 (.node (.node .leaf
    23357 (.node .leaf 23393 .leaf)) 23465 (.node (.node .leaf 23554 .leaf) 23557 (.node .leaf
    23561 .leaf))))) 23566 (.node (.node (.node (.node .leaf 23571 (.node .leaf 23576 .leaf))
    23583 (.node .leaf 23584 (.node .leaf 23591 .leaf))) 23595 (.node (.node .leaf 23596 (.node
    .leaf 23601 .leaf)) 23606 (.node (.node .leaf 23610 .leaf) 23619 (.node .leaf 23620 .leaf))))
    23624 (.node (.node (.node .leaf 23631 (.node .leaf 23637 .leaf)) 23641 (.node .leaf 23646
    (.node .leaf 23649 .leaf))) 23654 (.node (.node .leaf 23658 (.node .leaf 23661 .leaf)) 23664
    (.node (.node .leaf 23671 .leaf) 23676 (.node .leaf 23680 .leaf))))))))) 23687 (.node (.node
    (.node (.node (.node (.node (.node (.node .leaf 23691 (.node .leaf 23692 .leaf)) 23697 (.node
    .leaf 23714 (.node .leaf 23743 .leaf))) 23745 (.node (.node .leaf 23754 (.node .leaf 23757
    .leaf)) 23779 (.node .leaf 23784 (.node .leaf 23797 .leaf)))) 23809 (.node (.node (.node .leaf
    23814 (.node .leaf 23818 .leaf)) 23821 (.node .leaf 23843 (.node .leaf 23844 .leaf))) 23848
    (.node (.node .leaf 23861 (.node .leaf 23872 .leaf)) 23879 (.node (.node .leaf 23884 .leaf)
    23906 (.node .leaf 23909 .leaf))))) 23951 (.node (.node (.node (.node .leaf 23969 (.node .leaf
    23978 .leaf)) 23981 (.node .leaf 24005 (.node .leaf 24032 .leaf))) 24067 (.node (.node .leaf
    24068 (.node .leaf 24072 .leaf)) 24079 (.node (.node .leaf 24082 .leaf) 24097 (.node .leaf
    24102 .leaf)))) 24106 (.node (.node (.node .leaf 24109 (.node .leaf 24130 .leaf)) 24133 (.node
    .leaf 24137 (.node .leaf 24147 .leaf))) 24152 (.node (.node .leaf 24159 (.node .leaf 24160
    .leaf)) 24167 (.node (.node .leaf 24171 .leaf) 24172 (.node .leaf 24177 .leaf)))))) 24186
    (.node (.node (.node (.node (.node .leaf 24219 (.node .leaf 24227 .leaf)) 24232 (.node .leaf
    24267 (.node .leaf 24273 .leaf))) 24319 (.node (.node .leaf 24320 (.node .leaf 24327 .leaf))
    24331 (.node (.node .leaf 24332 .leaf) 24337 (.node .leaf 24354 .leaf)))) 24383 (.node (.node
    (.node .leaf 24385 (.node .leaf 24397 .leaf)) 24419 (.node .leaf 24424 (.node .leaf 24437
    .leaf))) 24457 (.node (.node .leaf 24487 (.node .leaf 24491 .leaf)) 24492 (.node (.node .leaf
    24545 .leaf) 24557 (.node .leaf 24576 .leaf))))) 24583 (.node (.node (.node (.node .leaf 24587
    (.node .leaf 24588 .leaf)) 24593 (.node .leaf 24605 (.node .leaf 24610 .leaf))) 24613 (.node
    (.node .leaf 24617 (.node .leaf 24622 .leaf)) 24632 (.node (.node .leaf 24639 .leaf) 24641
    (.node .leaf 24653 .leaf)))) 24676 (.node (.node (.node .leaf 24680 (.node .leaf 24687 .leaf))
    24693 (.node .leaf 24709 (.node .leaf 24713 .leaf))) 24736 (.node (.node .leaf 24747 (.node
    .leaf 24765 .leaf)) 24801 (.node (.node .leaf 24840 .leaf) 24847 (.node .leaf 24865
    .leaf))))))) 24874 (.node (.node (.node (.node (.node (.node .leaf 24877 (.node .leaf 24901
    .leaf)) 24928 (.node .leaf 24973 (.node .leaf 25000 .leaf))) 25089 (.node (.node .leaf 25098
    (.node .leaf 25101 .leaf)) 25115 (.node .leaf 25123 (.node .leaf 25128 .leaf)))) 25135 (.node
    (.node (.node .leaf 25145 (.node .leaf 25152 .leaf)) 25163 (.node .leaf 25169 (.node .leaf
    25189 .leaf))) 25193 (.node (.node .leaf 25241 (.node .leaf 25249 .leaf)) 25353 (.node (.node
    .leaf 25387 .leaf) 25405 (.node .leaf 25441 .leaf))))) 25513 (.node (.node (.node (.node .leaf
    25602 (.node .leaf 25605 .leaf)) 25609 (.node .leaf 25614 (.node .leaf 25619 .leaf))) 25624
    (.node (.node .leaf 25631 (.node .leaf 25632 .leaf)) 25639 (.node (.node .leaf 25643 .leaf)
    25644 (.node .leaf 25649 .leaf)))) 25654 (.node (.node (.node .leaf 25658 (.node .leaf 25667
    .leaf)) 25668 (.node .leaf 25672 (.node .leaf 25679 .leaf))) 25685 (.node (.node .leaf 25689
    (.node .leaf 25694 .leaf)) 25697 (.node (.node .leaf 25702 .leaf) 25706 (.node .leaf 25709
    .leaf)))))) 25712 (.node (.node (.node (.node (.node .leaf 25719 (.node .leaf 25724 .leaf))
    25728 (.node .leaf 25735 (.node .leaf 25739 .leaf))) 25740 (.node (.node .leaf 25745 (.node
    .leaf 25762 .leaf)) 25769 (.node (.node .leaf 25791 .leaf) 25793 (.node .leaf 25802 .leaf))))
    25805 (.node (.node (.node .leaf 25827 (.node .leaf 25832 .leaf)) 25839 (.node .leaf 25845
    (.node .leaf 25857 .leaf))) 25862 (.node (.node .leaf 25866 (.node .leaf 25869 .leaf)) 25891
    (.node (.node .leaf 25892 .leaf) 25896 (.node .leaf 25903 .leaf))))) 25909 (.node (.node
    (.node (.node .leaf 25920 (.node .leaf 25927 .leaf)) 25932 (.node .leaf 25954 (.node .leaf
    25957 .leaf))) 25961 (.node (.node .leaf 25999 (.node .leaf 26017 .leaf)) 26026 (.node (.node
    .leaf 26029 .leaf) 26053 (.node .leaf 26080 .leaf)))) 26115 (.node (.node (.node .leaf 26116
    (.node .leaf 26120 .leaf)) 26127 (.node .leaf 26130 (.node .leaf 26145 .leaf))) 26150 (.node
    (.node .leaf 26154 (.node .leaf 26157 .leaf)) 26171 (.node (.node .leaf 26178 .leaf) 26181
    (.node .leaf 26185 .leaf)))))))) 26195 (.node (.node (.node (.node (.node (.node (.node .leaf
    26200 (.node .leaf 26207 .leaf)) 26208 (.node .leaf 26215 (.node .leaf 26219 .leaf))) 26220
    (.node (.node .leaf 26225 (.node .leaf 26234 .leaf)) 26267 (.node .leaf 26275 (.node .leaf
    26280 .leaf)))) 26315 (.node (.node (.node .leaf 26321 (.node .leaf 26345 .leaf)) 26367 (.node
    .leaf 26368 (.node .leaf 26375 .leaf))) 26379 (.node (.node .leaf 26380 (.node .leaf 26385
    .leaf)) 26402 (.node (.node .leaf 26409 .leaf) 26431 (.node .leaf 26433 .leaf))))) 26445
    (.node (.node (.node (.node .leaf 26467 (.node .leaf 26472 .leaf)) 26485 (.node .leaf 26505
    (.node .leaf 26535 .leaf))) 26539 (.node (.node .leaf 26540 (.node .leaf 26593 .leaf)) 26605
    (.node (.node .leaf 26669 .leaf) 27145 (.node .leaf 27649 .leaf)))) 27695 (.node (.node (.node
    .leaf 27749 (.node .leaf 28171 .leaf)) 28225 (.node .leaf 28271 (.node .leaf 28673 .leaf)))
    28678 (.node (.node .leaf 28682 (.node .leaf 28685 .leaf)) 28700 (.node (.node .leaf 28707
    .leaf) 28708 (.node .leaf 28712 .leaf)))))) 28719 (.node (.node (.node (.node (.node .leaf
    28725 (.node .leaf 28736 .leaf)) 28748 (.node .leaf 28773 (.node .leaf 28777 .leaf))) 28808
    (.node (.node .leaf 28815 (.node .leaf 28825 .leaf)) 28833 (.node (.node .leaf 28842 .leaf)
    28845 (.node .leaf 28869 .leaf)))) 28896 (.node (.node (.node .leaf 28933 (.node .leaf 28960
    .leaf)) 28989 (.node .leaf 29097 (.node .leaf 29184 .leaf))) 29191 (.node (.node .leaf 29195
    (.node .leaf 29196 .leaf)) 29201 (.node (.node .leaf 29213 .leaf) 29218 (.node .leaf 29221
    .leaf))))) 29225 (.node (.node (.node (.node .leaf 29240 (.node .leaf 29247 .leaf)) 29249
    (.node .leaf 29261 (.node .leaf 29288 .leaf))) 29295 (.node (.node .leaf 29301 (.node .leaf
    29321 .leaf)) 29355 (.node (.node .leaf 29409 .leaf) 29465 (.node .leaf 29473 .leaf)))) 29485
    (.node (.node (.node .leaf 29699 (.node .leaf 29700 .leaf)) 29704 (.node .leaf 29711 (.node
    .leaf 29717 .leaf))) 29721 (.node (.node .leaf 29726 (.node .leaf 29729 .leaf)) 29734 (.node
    (.node .leaf 29738 .leaf) 29741 (.node .leaf 29744 .leaf))))))) 29751 (.node (.node (.node
    (.node (.node (.node .leaf 29756 (.node .leaf 29762 .leaf)) 29765 (.node .leaf 29769 (.node
    .leaf 29774 .leaf))) 29780 (.node (.node .leaf 29792 (.node .leaf 29799 .leaf)) 29803 (.node
    (.node .leaf 29804 .leaf) 29825 (.node .leaf 29830 .leaf)))) 29834 (.node (.node (.node .leaf
    29837 (.node .leaf 29851 .leaf)) 29859 (.node .leaf 29860 (.node .leaf 29864 .leaf))) 29888
    (.node (.node .leaf 29895 (.node .leaf 29900 .leaf)) 29905 (.node (.node .leaf 29922 .leaf)
    29925 (.node .leaf 29951 .leaf))))) 29952 (.node (.node (.node (.node .leaf 29959 (.node .leaf
    29964 .leaf)) 29969 (.node .leaf 29986 (.node .leaf 29989 .leaf))) 30015 (.node (.node .leaf
    30029 (.node .leaf 30056 .leaf)) 30069 (.node (.node .leaf 30089 .leaf) 30119 (.node .leaf
    30123 .leaf)))) 30124 (.node (.node (.node .leaf 30159 (.node .leaf 30177 .leaf)) 30186 (.node
    .leaf 30189 (.node .leaf 30210 .leaf))) 30213 (.node (.node .leaf 30217 (.node .leaf 30222
    .leaf)) 30227 (.node (.node .leaf 30232 .leaf) 30239 (.node .leaf 30240 .leaf)))))) 30247
    (.node (.node (.node (.node (.node .leaf 30251 (.node .leaf 30252 .leaf)) 30257 (.node .leaf
    30262 (.node .leaf 30266 .leaf))) 30275 (.node (.node .leaf 30276 (.node .leaf 30280 .leaf))
    30287 (.node (.node .leaf 30293 .leaf) 30297 (.node .leaf 30305 .leaf)))) 30314 (.node (.node
    (.node .leaf 30317 (.node .leaf 30320 .leaf)) 30327 (.node .leaf 30332 (.node .leaf 30336
    .leaf))) 30343 (.node (.node .leaf 30347 (.node .leaf 30348 .leaf)) 30370 (.node (.node .leaf
    30401 .leaf) 30413 (.node .leaf 30427 .leaf))))) 30435 (.node (.node (.node (.node .leaf 30440
    (.node .leaf 30465 .leaf)) 30477 (.node .leaf 30491 (.node .leaf 30499 .leaf))) 30500 (.node
    (.node .leaf 30504 (.node .leaf 30545 .leaf)) 30565 (.node (.node .leaf 30591 .leaf) 30595
    (.node .leaf 30600 .leaf)))) 30665 (.node (.node (.node .leaf 30699 (.node .leaf 30729 .leaf))
    31277 (.node .leaf 31755 (.node .leaf 31781 .leaf))) 31809 (.node (.node .leaf 31855 (.node
    .leaf 32257 .leaf)) 32303 (.node (.node .leaf 32331 .leaf) 32357 (.node .leaf 32751
    .leaf)))))))))))

/-- The three bits a jump toggles: source, jumped and landing. -/
def xorMask (t : ℕ × ℕ × ℕ) : ℕ := (1 <<< t.1) ||| ((1 <<< t.2.1) ||| (1 <<< t.2.2))

lemma testBit_xorMask (t : ℕ × ℕ × ℕ) (i : ℕ) :
    (xorMask t).testBit i
      = (decide (t.1 = i) || (decide (t.2.1 = i) || decide (t.2.2 = i))) := by
  simp only [xorMask, Nat.testBit_or, Nat.one_shiftLeft, Nat.testBit_two_pow]

/-- Index triples of candidate moves are pairwise distinct. -/
lemma cand_distinct : ∀ m ∈ candMoves,
    (toIdx m).1 ≠ (toIdx m).2.1 ∧ (toIdx m).2.1 ≠ (toIdx m).2.2 ∧
      (toIdx m).1 ≠ (toIdx m).2.2 := by decide

lemma getD_triCells_inj : ∀ i < 15, ∀ j < 15,
    triCells.getD i (0, 0) = triCells.getD j (0, 0) → i = j := by decide

lemma coords_eq_getD_iff {i j : ℕ} (hi : i < 15) (hj : j < 15) {r c : ℤ}
    (hr : (((triCells.getD j (0, 0)).1 : ℕ) : ℤ) = r)
    (hc : (((triCells.getD j (0, 0)).2 : ℕ) : ℤ) = c) :
    ((((triCells.getD i (0, 0)).1 : ℕ) : ℤ) = r ∧
      (((triCells.getD i (0, 0)).2 : ℕ) : ℤ) = c) ↔ j = i := by
  constructor
  · intro hco
    apply getD_triCells_inj j hj i hi
    exact (fin_pair_eq_iff_coords (triCells.getD j (0, 0)) (triCells.getD i (0, 0))).mp
      ⟨by rw [hr, hco.1], by rw [hc, hco.2]⟩
  · intro h
    rw [← h]
    exact ⟨hr, hc⟩

/-- A jump toggles exactly its three occupancy bits: the child board's mask
is the parent's xor-ed with the move's bit triple. -/
lemma maskOf_applyMove {g : Grid} {m : Move} (hm : legalBool g m = true)
    (hcand : m ∈ candMoves) :
    maskOf (applyMove g m) = maskOf g ^^^ xorMask (toIdx m) := by
  obtain ⟨hsrc, hadj, hland⟩ := legalBool_parts hm
  obtain ⟨ha15, ea⟩ := cand_src_facts m hcand
  obtain ⟨hb15, ebr, ebc⟩ := cand_adj_facts m hcand
  obtain ⟨hc15, ecr, ecc⟩ := cand_land_facts m hcand
  obtain ⟨hab, hbc, hac⟩ := cand_distinct m hcand
  have ear : (((triCells.getD (toIdx m).1 (0, 0)).1 : ℕ) : ℤ) = ((m.row : ℕ) : ℤ) := by
    rw [ea]
  have eac : (((triCells.getD (toIdx m).1 (0, 0)).2 : ℕ) : ℤ) = ((m.col : ℕ) : ℤ) := by
    rw [ea]
  apply Nat.eq_of_testBit_eq
  intro i
  rw [Nat.testBit_xor, testBit_xorMask]
  by_cases hi : i < 15
  · rw [testBit_maskOf _ i hi, testBit_maskOf g i hi]
    have hcl := coords_eq_getD_iff hi hc15 ecr ecc
    have hcb := coords_eq_getD_iff hi hb15 ebr ebc
    have hca := coords_eq_getD_iff hi ha15 ear eac
    rw [applyMove_apply]
    by_cases h1 : (toIdx m).2.2 = i
    · rw [if_pos (hcl.mpr h1)]
      have hv : g (triCells.getD i (0, 0)).1 (triCells.getD i (0, 0)).2 = 0 := by
        rw [← h1, ← squares_coords g ecr ecc]
        exact hland
      rw [hv]
      simp [hasFull, h1]
    · rw [if_neg (fun hco => h1 (hcl.mp hco))]
      by_cases h2 : (toIdx m).2.1 = i
      · rw [if_pos (hcb.mpr h2)]
        have hv : hasFull (g (triCells.getD i (0, 0)).1 (triCells.getD i (0, 0)).2) = true := by
          rw [← h2, ← squares_coords g ebr ebc]
          exact hadj
        rw [hv]
        simp [hasFull, h2]
      · rw [if_neg (fun hco => h2 (hcb.mp hco))]
        by_cases h3 : (toIdx m).1 = i
        · rw [if_pos (hca.mpr h3)]
          have hv : hasFull (g (triCells.getD i (0, 0)).1 (triCells.getD i (0, 0)).2) = true := by
            rw [← h3, ea]
            exact hsrc
          rw [hv]
          simp [hasFull, h3]
        · rw [if_neg (fun hco => h3 (hca.mp hco))]
          rw [hasFull_clearLastCell]
          simp [h1, h2, h3]
  · have h215 : (32768 : ℕ) = 2 ^ 15 := by norm_num
    have hle : (2 : ℕ) ^ 15 ≤ 2 ^ i := Nat.pow_le_pow_right (by omega) (by omega)
    rw [Nat.testBit_lt_two_pow (lt_of_lt_of_le (h215 ▸ maskOf_lt (applyMove g m)) hle)]
    rw [Nat.testBit_lt_two_pow (lt_of_lt_of_le (h215 ▸ maskOf_lt g) hle)]
    have hna : (toIdx m).1 ≠ i := by omega
    have hnb : (toIdx m).2.1 ≠ i := by omega
    have hnc : (toIdx m).2.2 ≠ i := by omega
    simp [hna, hnb, hnc]

/-- The closure check: from every reachable mask, every applicable jump
leads back into the tree. -/
lemma reachTree_closed :
    allT (fun mask => candIdxTriples.all (fun t =>
      !(mask.testBit t.1 && (mask.testBit t.2.1 && !mask.testBit t.2.2)) ||
        memT reachTree (mask ^^^ xorMask t))) reachTree = true := by decide!

lemma reachTree_start : memT reachTree (maskOf initial_board_1) = true := by decide

/-- The mask of every reachable board is in the tree. -/
lemma maskOf_mem_reachTree {g : Grid} (hr : Reachable g) :
    memT reachTree (maskOf g) = true := by
  induction hr with
  | root => exact reachTree_start
  | @step g2 m2 hg hm ih =>
    have hgood := goodGrid_of_reachable hg
    have hleg := mem_legalMoves.mp hm
    have hcand : m2 ∈ candMoves := by
      rw [candMoves]
      exact List.mem_filter.mpr ⟨mem_allMoves m2, tripleOK_of_legal hgood hleg⟩
    rw [maskOf_applyMove hleg hcand]
    have hstep := allT_memT reachTree reachTree_closed (maskOf g2) ih
    rw [List.all_eq_true] at hstep
    have hidx : toIdx m2 ∈ candIdxTriples := by
      rw [← cand_map]
      exact List.mem_map_of_mem toIdx hcand
    have ht := hstep (toIdx m2) hidx
    rw [Bool.or_eq_true] at ht
    rcases ht with ht | ht
    · exfalso
      have hb := legalBool_eq_bits hgood m2 hcand
      rw [hb.symm.trans hleg] at ht
      exact absurd ht (by decide)
    · exact ht

/-- The bound check: every reachable mask admits at most 14 jumps. -/
lemma reachTree_bound :
    allT (fun mask => Nat.ble (maskMovesArith mask) 14) reachTree = true := by decide!

/-- The search never generates more than `MAX_BOARDS = 14` children. -/
lemma legalMoves_length_le {g : Grid} (hr : Reachable g) :
    (legalMoves g).length ≤ 14 := by
  rw [legalMoves_length_eq_maskMoves (goodGrid_of_reachable hr)]
  have h := allT_memT reachTree reachTree_bound (maskOf g) (maskOf_mem_reachTree hr)
  have h2 := Nat.le_of_ble_eq_true h
  rw [maskMoves_eq_arith] at h2
  exact h2

/-! ## Winning-path reconstruction

`main`'s reconstruction works on the pointer structure of boards: walk
`prev` links from the winning board to the root while setting each parent's
`nextwin` link, then walk `nextwin` links forward from the root.  We model
board identities by an arbitrary type with decidable equality and pointer
fields by functions into `Option`. -/

/-- `chain` lists a board, its parent, grandparent, …, ending at the root
(the board whose parent pointer is null). -/
inductive IsPrevChain {α : Type} (prev : α → Option α) : List α → Prop
  | single (b : α) (h : prev b = none) : IsPrevChain prev [b]
  | cons (b p : α) (rest : List α) (h : prev b = some p)
      (t : IsPrevChain prev (p :: rest)) : IsPrevChain prev (b :: p :: rest)

/-- The first loop of the reconstruction: `while (b->prev) { b->prev->nextwin = b;
b = b->prev; }`, expressed on the parent chain of the winning board. -/
def setLinks {α : Type} [DecidableEq α] : List α → (α → Option α) → (α → Option α)
  | b :: p :: rest, nw => setLinks (p :: rest) (fun x => if x = p then some b else nw x)
  | _, nw => nw

/-- The second loop: `while (b) { print_board(b); b = b->nextwin; }`, collecting
the boards visited (the fuel is irrelevant once at least the path length). -/
def walkFwd {α : Type} (nw : α → Option α) : ℕ → α → List α
  | 0, b => [b]
  | fuel + 1, b =>
    b :: (match nw b with
          | none => []
          | some b2 => walkFwd nw fuel b2)

lemma isPrevChain_ne_nil {α : Type} {prev : α → Option α} {c : List α}
    (h : IsPrevChain prev c) : c ≠ [] := by
  cases h <;> simp

lemma setLinks_not_mem_tail {α : Type} [DecidableEq α] :
    ∀ (c : List α) (nw : α → Option α) (x : α), x ∉ c.tail → setLinks c nw x = nw x := by
  intro c
  induction c with
  | nil => intro nw x _; rfl
  | cons b t ih =>
    cases t with
    | nil => intro nw x _; rfl
    | cons p rest =>
      intro nw x h
      simp only [List.tail_cons, List.mem_cons, not_or] at h
      rw [setLinks, ih (fun y => if y = p then some b else nw y) x
        (by simp only [List.tail_cons]; exact h.2)]
      rw [if_neg h.1]

lemma setLinks_chain {α : Type} [DecidableEq α] {prev : α → Option α} :
    ∀ (c : List α), IsPrevChain prev c → c.Nodup → ∀ nw : α → Option α,
      List.Chain' (fun a b => setLinks c nw a = some b) c.reverse := by
  intro c h
  induction h with
  | single b hb =>
    intro _ nw
    simp
  | cons b p rest hb t ih =>
    intro hnd nw
    have hnd2 : (p :: rest).Nodup := hnd.of_cons
    have hpr : p ∉ rest := (List.nodup_cons.mp hnd2).1
    rw [setLinks]
    have hchain := ih hnd2 (fun x => if x = p then some b else nw x)
    rw [show (b :: p :: rest).reverse = (p :: rest).reverse ++ [b] by simp]
    rw [List.chain'_append]
    refine ⟨hchain, List.chain'_singleton b, ?_⟩
    intro x hx y hy
    rw [List.getLast?_reverse] at hx
    simp only [List.head?_cons, Option.mem_def, Option.some.injEq] at hx
    simp only [List.head?_cons, Option.mem_def, Option.some.injEq] at hy
    rw [← hx, ← hy]
    rw [setLinks_not_mem_tail (p :: rest) _ p (by simpa using hpr)]
    rw [if_pos rfl]

lemma setLinks_head {α : Type} [DecidableEq α] (c : List α) (nw : α → Option α)
    (b : α) (hhead : c.head? = some b) (hnd : c.Nodup) : setLinks c nw b = nw b := by
  cases c with
  | nil => simp at hhead
  | cons x t =>
    simp only [List.head?_cons, Option.some.injEq] at hhead
    apply setLinks_not_mem_tail
    rw [← hhead]
    simp only [List.tail_cons]
    exact (List.nodup_cons.mp hnd).1

lemma walkFwd_of_chain {α : Type} (nw : α → Option α) :
    ∀ (l : List α) (b : α), l.head? = some b →
      List.Chain' (fun a b2 => nw a = some b2) l →
      (∀ r, l.getLast? = some r → nw r = none) →
      ∀ fuel, l.length ≤ fuel + 1 → walkFwd nw fuel b = l := by
  intro l
  induction l with
  | nil => intro b h; simp at h
  | cons x t ih =>
    intro b hb hchain hlast fuel hfuel
    simp only [List.head?_cons, Option.some.injEq] at hb
    cases t with
    | nil =>
      have hnone : nw x = none := hlast x rfl
      rw [← hb]
      cases fuel with
      | zero => rfl
      | succ fuel => rw [walkFwd, hnone]
    | cons y t2 =>
      have hlink : nw x = some y := (List.chain'_cons.mp hchain).1
      have hchain2 : List.Chain' (fun a b2 => nw a = some b2) (y :: t2) :=
        (List.chain'_cons.mp hchain).2
      have hflen : t2.length + 2 ≤ fuel + 1 := by simpa using hfuel
      cases fuel with
      | zero => omega
      | succ fuel =>
        have hrec := ih y rfl hchain2
          (fun r hr => hlast r (by rw [List.getLast?_cons_cons]; exact hr)) fuel
          (by simp only [List.length_cons]; omega)
        rw [← hb, walkFwd, hlink]
        show x :: walkFwd nw fuel y = x :: y :: t2
        rw [hrec]

/-- The reverse parent chain is linked by `prev`: consecutive boards of the
reconstructed forward sequence are parent and child. -/
lemma isPrevChain_chain'_reverse {α : Type} {prev : α → Option α} :
    ∀ {c : List α}, IsPrevChain prev c →
      List.Chain' (fun a b => prev b = some a) c.reverse := by
  intro c h
  induction h with
  | single b hb => simp
  | cons b p rest hb t ih =>
    rw [show (b :: p :: rest).reverse = (p :: rest).reverse ++ [b] by simp]
    rw [List.chain'_append]
    refine ⟨ih, List.chain'_singleton b, ?_⟩
    intro x hx y hy
    rw [List.getLast?_reverse] at hx
    simp only [List.head?_cons, Option.mem_def, Option.some.injEq] at hx hy
    rw [← hx, ← hy]
    exact hb

/-! ## Chains of legal moves -/

/-- A list of moves each legal in the board reached by the previous ones:
the branches of the search tree. -/
def ChainLegal : Grid → List Move → Prop
  | _, [] => True
  | g, m :: ms => m ∈ legalMoves g ∧ ChainLegal (applyMove g m) ms

lemma chainLegal_length : ∀ (ms : List Move) (g : Grid), ChainLegal g ms →
    ms.length ≤ count_pegs g - 1 := by
  intro ms
  induction ms with
  | nil => intro g _; simp
  | cons m rest ih =>
    intro g h
    obtain ⟨hm, hrest⟩ := h
    have hc := count_pegs_applyMove (mem_legalMoves.mp hm)
    have hr := ih (applyMove g m) hrest
    simp only [List.length_cons]
    omega

/-- The reverse direction index: `revOff` negates both offsets. -/
def revOff (o : Fin 6) : Fin 6 := ([3, 2, 1, 0, 5, 4] : List (Fin 6)).getD o 0

lemma revOff_offsets : ∀ o : Fin 6,
    rowoffsets (revOff o) = -rowoffsets o ∧ coloffsets (revOff o) = -coloffsets o := by
  decide

/-! ## Cell-level description of a move's effect -/

lemma bnds_src (m : Move) : Bnds ((m.row : ℕ) : ℤ) ((m.col : ℕ) : ℤ) := by
  have h1 : (m.row : ℕ) < 9 := m.row.isLt
  have h2 : (m.col : ℕ) < 13 := m.col.isLt
  exact ⟨by omega, by omega, by omega, by omega⟩

/-- What each cell of the child board holds: the landing cell gets
`POS_FULL | POS_LAST`, the jumped and source cells `POS_EMPTY`, every other
cell keeps its parent value with the `POS_LAST` bit cleared. -/
lemma applyMove_squares {g : Grid} {m : Move} (hm : legalBool g m = true) (r c : ℤ) :
    squares (applyMove g m) r c =
      if r = landR m ∧ c = landC m then 0x11
      else if r = adjR m ∧ c = adjC m then 0
      else if r = ((m.row : ℕ) : ℤ) ∧ c = ((m.col : ℕ) : ℤ) then 0
      else clearLastCell (squares g r c) := by
  obtain ⟨hsrc, hadj, hland⟩ := legalBool_parts hm
  have hbadj := bnds_of_hasFull _ _ _ hadj
  have hbland := bnds_of_squares_eq_zero _ _ _ hland
  rw [applyMove, squares_setSq, squares_setSq, squares_setSq, squares_clear_last]
  by_cases h1 : r = landR m ∧ c = landC m
  · have hb : Bnds r c := by rw [h1.1, h1.2]; exact hbland
    rw [if_pos ⟨h1.1, h1.2, hb⟩, if_pos h1]
  · rw [if_neg (by tauto), if_neg h1]
    by_cases h2 : r = adjR m ∧ c = adjC m
    · have hb : Bnds r c := by rw [h2.1, h2.2]; exact hbadj
      rw [if_pos ⟨h2.1, h2.2, hb⟩, if_pos h2]
    · rw [if_neg (by tauto), if_neg h2]
      by_cases h3 : r = ((m.row : ℕ) : ℤ) ∧ c = ((m.col : ℕ) : ℤ)
      · have hb : Bnds r c := by rw [h3.1, h3.2]; exact bnds_src m
        rw [if_pos ⟨h3.1, h3.2, hb⟩, if_pos h3]
      · rw [if_neg (by tauto), if_neg h3]

/-- In a child board the landing cell and only the landing cell carries the
"last moved" marker. -/
lemma applyMove_hasLast {g : Grid} {m : Move} (hm : legalBool g m = true) (r c : ℤ) :
    hasLast (squares (applyMove g m) r c) = true ↔ (r = landR m ∧ c = landC m) := by
  rw [applyMove_squares hm]
  by_cases h1 : r = landR m ∧ c = landC m
  · rw [if_pos h1]
    exact ⟨fun _ => h1, fun _ => by decide⟩
  · rw [if_neg h1]
    constructor
    · intro hcontra
      exfalso
      by_cases h2 : r = adjR m ∧ c = adjC m
      · rw [if_pos h2] at hcontra
        exact absurd hcontra (by decide)
      · rw [if_neg h2] at hcontra
        by_cases h3 : r = ((m.row : ℕ) : ℤ) ∧ c = ((m.col : ℕ) : ℤ)
        · rw [if_pos h3] at hcontra
          exact absurd hcontra (by decide)
        · rw [if_neg h3, hasLast_clearLastCell] at hcontra
          exact Bool.false_ne_true hcontra
    · intro h
      exact absurd h h1

/-- The root board carries no "last moved" marker anywhere. -/
lemma initial_no_last : ∀ r c : ℤ, hasLast (squares initial_board_1 r c) = false := by
  intro r c
  by_cases hb : Bnds r c
  · rw [squares_toCell _ r c hb]
    have hall : ∀ p : Fin 9 × Fin 13, hasLast (initial_board_1 p.1 p.2) = false := by decide
    exact hall _
  · rw [squares_oob _ r c hb]
    decide

/-! ## The claims -/

/-- C1: on every board reachable from the initial layout, a jump move from
an occupied cell `(r,c)` in one of the six directions is generated by the
search if and only if the adjacent cell is `Occupied`, the landing cell is
`Empty`, and both of those cells are non-`Invalid`. -/
theorem c1_move_generated_iff (g : Grid) (hg : Reachable g) (m : Move)
    (hocc : hasFull (g m.row m.col) = true) :
    m ∈ legalMoves g ↔
      (cellState (squares g (adjR m) (adjC m)) = CellState.occupied ∧
        cellState (squares g (landR m) (landC m)) = CellState.empty ∧
        cellState (squares g (adjR m) (adjC m)) ≠ CellState.invalid ∧
        cellState (squares g (landR m) (landC m)) ≠ CellState.invalid) := by
  have hgood := goodGrid_of_reachable hg
  rw [mem_legalMoves, legalBool, hocc]
  have hv1 := goodGrid_squares_values hgood (adjR m) (adjC m)
  have hv2 := goodGrid_squares_values hgood (landR m) (landC m)
  simp only [Bool.true_and, Bool.and_eq_true, beq_iff_eq]
  rcases hv1 with h1 | h1 | h1 | h1 <;> rcases hv2 with h2 | h2 | h2 | h2 <;>
    rw [h1, h2] <;> decide

/-- Witness for C1 at the initial board: the first generated move. -/
theorem c1_witness : Move.mk 6 4 1 ∈ legalMoves initial_board_1 :=
  (c1_move_generated_iff initial_board_1 Reachable.root (Move.mk 6 4 1)
    (by decide)).mpr (by decide)

/-- C2: every child board generated from a board `B` has exactly
`count_pegs B - 1` pegs. -/
theorem c2_child_count (g : Grid) (m : Move) (hm : m ∈ legalMoves g) :
    count_pegs (applyMove g m) = count_pegs g - 1 := by
  have h := count_pegs_applyMove (mem_legalMoves.mp hm)
  omega

/-- Witness for C2 at the initial board. -/
theorem c2_witness :
    count_pegs (applyMove initial_board_1 (Move.mk 6 4 1))
      = count_pegs initial_board_1 - 1 :=
  c2_child_count initial_board_1 (Move.mk 6 4 1) (by decide)

/-- C3: every cell that is `Invalid` in the root board is still `Invalid`
in every reachable board. -/
theorem c3_invalid_preserved (g : Grid) (hg : Reachable g) (r c : ℤ)
    (h : squares initial_board_1 r c = 2) : squares g r c = 2 := by
  have hgood := goodGrid_of_reachable hg
  by_cases hb : Bnds r c
  · rw [squares_toCell _ r c hb] at h ⊢
    by_cases hp : toCell r c hb ∈ triCells
    · have hv := goodGrid_initial (toCell r c hb)
      rw [if_pos hp] at hv
      omega
    · have hv := hgood (toCell r c hb)
      rw [if_neg hp] at hv
      exact hv
  · exact squares_oob g r c hb

/-- Witness for C3 on a board one move deep. -/
theorem c3_witness :
    squares (applyMove initial_board_1 (Move.mk 6 4 1)) 0 0 = 2 :=
  c3_invalid_preserved (applyMove initial_board_1 (Move.mk 6 4 1))
    (Reachable.step Reachable.root (by decide)) 0 0 (by decide)

/-- C4: a validated move yields a new board equal to the input except that
the landing cell becomes `Occupied` with the "last moved" marker and the
jumped and source cells become `Empty`, every other cell keeping its value
with the inherited marker cleared; the marker sits on exactly the landing
cell, and the root board carries no marker at all.  (The input board is a
separate unchanged value: the child is built from a copy.) -/
theorem c4_clone_with_move :
    (∀ (g : Grid) (m : Move), m ∈ legalMoves g →
      (∀ r c : ℤ, squares (applyMove g m) r c =
        if r = landR m ∧ c = landC m then 0x11
        else if r = adjR m ∧ c = adjC m then 0
        else if r = ((m.row : ℕ) : ℤ) ∧ c = ((m.col : ℕ) : ℤ) then 0
        else clearLastCell (squares g r c)) ∧
      (∀ r c : ℤ, hasLast (squares (applyMove g m) r c) = true ↔
        (r = landR m ∧ c = landC m))) ∧
    (∀ r c : ℤ, hasLast (squares initial_board_1 r c) = false) := by
  refine ⟨fun g m hm => ⟨?_, ?_⟩, initial_no_last⟩
  · exact applyMove_squares (mem_legalMoves.mp hm)
  · exact applyMove_hasLast (mem_legalMoves.mp hm)

/-- Witness for C4: the landing cell of the first move from the root holds
`POS_FULL | POS_LAST`, and the root itself has no marker. -/
theorem c4_witness :
    squares (applyMove initial_board_1 (Move.mk 6 4 1)) 4 6 = 0x11 ∧
      hasLast (squares initial_board_1 2 6) = false := by
  constructor
  · have h := (c4_clone_with_move.1 initial_board_1 (Move.mk 6 4 1) (by decide)).1 4 6
    rw [h]
    decide
  · exact c4_clone_with_move.2 2 6

/-- C5: visiting a one-peg board records it as the winning board only when
none was recorded yet — so the recorded winner is the first one-peg board
in depth-first discovery order — increments the win counter for every such
board, and never cuts the traversal short: the board counter always grows
by the full size of the subtree. -/
theorem c5_win_recording (g : Grid) (s : SState) :
    (generate_boards g s).total_boards
        = s.total_boards + ((visited_boards g).length - 1) ∧
      (generate_boards g s).total_winning_boards
        = s.total_winning_boards + (visited_boards g).countP isWin ∧
      (generate_boards g s).winning_board
        = (match s.winning_board with
           | some w => some w
           | none => (visited_boards g).find? isWin) :=
  generate_boards_spec g s

/-- C6: walking parent links from the winning board while setting forward
links, then walking forward links from the root, yields exactly the reverse
of the parent chain, and consecutive boards of that sequence are parent and
child. -/
theorem c6_path_reconstruction {α : Type} [DecidableEq α] (prev : α → Option α)
    (chain : List α) (root : α) (h : IsPrevChain prev chain) (hnd : chain.Nodup)
    (hroot : chain.getLast? = some root) :
    walkFwd (setLinks chain (fun _ => none)) chain.length root = chain.reverse ∧
      List.Chain' (fun a b => prev b = some a) chain.reverse := by
  constructor
  · apply walkFwd_of_chain
    · rw [List.head?_reverse]
      exact hroot
    · exact setLinks_chain chain h hnd _
    · intro r hr
      rw [List.getLast?_reverse] at hr
      rw [setLinks_head chain (fun _ => none) r hr hnd]
    · rw [List.length_reverse]
      omega
  · exact isPrevChain_chain'_reverse h

/-- Witness for C6 on a three-board chain over numeric identities. -/
theorem c6_witness :
    walkFwd (setLinks [2, 1, 0] (fun _ => none)) ([2, 1, 0] : List ℕ).length 0
        = ([2, 1, 0] : List ℕ).reverse ∧
      List.Chain' (fun a b => (if b = 0 then none else some (b - 1) : Option ℕ) = some a)
        ([2, 1, 0] : List ℕ).reverse :=
  c6_path_reconstruction (fun b : ℕ => if b = 0 then none else some (b - 1)) [2, 1, 0] 0
    (IsPrevChain.cons 2 1 [0] (by decide)
      (IsPrevChain.cons 1 0 [] (by decide) (IsPrevChain.single 0 (by decide))))
    (by decide) (by decide)

/-- C7: on every reachable board, for every occupied cell the adjacent-cell
lookup stays inside the 9 × 13 array in all six directions, and whenever
that adjacent cell is occupied the landing-cell lookup (two steps away,
four columns for the horizontal directions) is in bounds as well. -/
theorem c7_accesses_in_bounds (g : Grid) (hg : Reachable g) (m : Move)
    (hocc : hasFull (g m.row m.col) = true) :
    Bnds (adjR m) (adjC m) ∧
      (hasFull (squares g (adjR m) (adjC m)) = true → Bnds (landR m) (landC m)) := by
  have hgood := goodGrid_of_reachable hg
  have htri := @mem_triCells_of_hasFull g hgood (m.row, m.col) hocc
  have hbr : 2 ≤ (m.row : ℕ) ∧ (m.row : ℕ) ≤ 6 ∧ 2 ≤ (m.col : ℕ) ∧ (m.col : ℕ) ≤ 10 :=
    triCells_bounds _ htri
  have ho := offsets_bounds m.off
  constructor
  · simp only [adjR, adjC, Bnds]
    omega
  · intro h2
    have hb2 := bnds_of_hasFull _ _ _ h2
    have h3 : hasFull (g (toCell _ _ hb2).1 (toCell _ _ hb2).2) = true := by
      rw [← squares_toCell g _ _ hb2]
      exact h2
    have htri2 := mem_triCells_of_hasFull hgood h3
    have hbt : 2 ≤ ((toCell (adjR m) (adjC m) hb2).1 : ℕ) ∧
        ((toCell (adjR m) (adjC m) hb2).1 : ℕ) ≤ 6 ∧
        2 ≤ ((toCell (adjR m) (adjC m) hb2).2 : ℕ) ∧
        ((toCell (adjR m) (adjC m) hb2).2 : ℕ) ≤ 10 := triCells_bounds _ htri2
    have e1 := toCell_coe_fst _ _ hb2
    have e2 := toCell_coe_snd _ _ hb2
    have ha1 : adjR m = (m.row : ℤ) + rowoffsets m.off := rfl
    have ha2 : adjC m = (m.col : ℤ) + coloffsets m.off := rfl
    simp only [landR, landC, Bnds]
    omega

/-- Witness for C7 at the initial board. -/
theorem c7_witness :
    Bnds (adjR (Move.mk 6 4 1)) (adjC (Move.mk 6 4 1)) ∧
      (hasFull (squares initial_board_1 (adjR (Move.mk 6 4 1)) (adjC (Move.mk 6 4 1))) = true →
        Bnds (landR (Move.mk 6 4 1)) (landC (Move.mk 6 4 1))) :=
  c7_accesses_in_bounds initial_board_1 Reachable.root (Move.mk 6 4 1) (by decide)

/-- C8: no reachable board has more than `MAX_BOARDS = 14` legal moves, so
the child-array index `new_board_num` never reaches past the end of
`next[MAX_BOARDS]`. -/
theorem c8_children_within_max_boards (g : Grid) (hg : Reachable g) :
    (legalMoves g).length ≤ 14 :=
  legalMoves_length_le hg

/-- Witness for C8 at the initial board. -/
theorem c8_witness : (legalMoves initial_board_1).length ≤ 14 :=
  c8_children_within_max_boards initial_board_1 Reachable.root

/-- C9: the recursion is well-founded on the peg count — every recursive
call receives a board with strictly fewer pegs — and a chain of successive
moves below a board with `p` pegs has length at most `p - 1`. -/
theorem c9_termination :
    (∀ (g : Grid) (m : Move), m ∈ legalMoves g →
        count_pegs (applyMove g m) < count_pegs g) ∧
      (∀ (g : Grid) (ms : List Move), ChainLegal g ms →
        ms.length ≤ count_pegs g - 1) := by
  constructor
  · intro g m hm
    have h := count_pegs_applyMove (mem_legalMoves.mp hm)
    omega
  · intro g ms h
    exact chainLegal_length ms g h

/-- Witness for C9 at the initial board. -/
theorem c9_witness :
    count_pegs (applyMove initial_board_1 (Move.mk 6 4 1)) < count_pegs initial_board_1 ∧
      ([Move.mk 6 4 1] : List Move).length ≤ count_pegs initial_board_1 - 1 := by
  constructor
  · exact c9_termination.1 initial_board_1 (Move.mk 6 4 1) (by decide)
  · exact c9_termination.2 initial_board_1 [Move.mk 6 4 1] ⟨by decide, trivial⟩

/-- C10: after a move is applied, the exact reverse move — from the landing
cell, in the negated direction, back over the jumped cell — is not legal in
the resulting board, because the jumped cell is now `Empty`. -/
theorem c10_no_immediate_reverse (g : Grid) (m : Move) (hm : m ∈ legalMoves g)
    (m2 : Move)
    (hsrc : ((m2.row : ℕ) : ℤ) = landR m ∧ ((m2.col : ℕ) : ℤ) = landC m)
    (hoff : m2.off = revOff m.off) :
    m2 ∉ legalMoves (applyMove g m) := by
  intro hmem
  have hleg2 := mem_legalMoves.mp hmem
  obtain ⟨_, hadj2, _⟩ := legalBool_parts hleg2
  have hro := revOff_offsets m.off
  have he1 : adjR m2 = adjR m := by
    simp only [adjR] at hro ⊢
    rw [hoff, hro.1]
    simp only [adjR, landR] at hsrc ⊢
    omega
  have he2 : adjC m2 = adjC m := by
    simp only [adjC] at hro ⊢
    rw [hoff, hro.2]
    simp only [adjC, landC] at hsrc ⊢
    omega
  have hzero : squares (applyMove g m) (adjR m) (adjC m) = 0 := by
    rw [applyMove_squares (mem_legalMoves.mp hm)]
    rw [if_neg (fun hc => adj_ne_land m ⟨hc.1, hc.2⟩), if_pos ⟨rfl, rfl⟩]
  rw [he1, he2, hzero] at hadj2
  exact absurd hadj2 (by decide)

/-- Witness for C10: the reverse of the first move is not available in the
resulting board. -/
theorem c10_witness :
    Move.mk 4 6 2 ∉ legalMoves (applyMove initial_board_1 (Move.mk 6 4 1)) :=
  c10_no_immediate_reverse initial_board_1 (Move.mk 6 4 1) (by decide)
    (Move.mk 4 6 2) (by decide) (by decide)

example : (legalMoves initial_board_1).length = 2 := by decide

example : legalMoves initial_board_1 =
    [Move.mk 6 4 1, Move.mk 6 8 0] := by decide

example : count_pegs (applyMove initial_board_1 (Move.mk 6 4 1)) = 13 := by
  decide

example : (legalMoves (applyMove initial_board_1 (Move.mk 6 4 1))).length = 3 := by
  decide
